import Mathlib

/-!
Shallow embedding of the supabase-storage-cli command handlers
(src/commands/bucket.ts, src/commands/file.ts, src/commands/url.ts,
src/utils.ts) together with proofs about the behaviour the
specification ascribes to them.

Command handlers are modelled as pure functions from the parsed
argument record (mirroring the TypeScript `*Arguments` interfaces) and
a mocked client response to a trace of effects (log lines, client
calls, process exit).  JavaScript string truthiness (`undefined` and
`""` are falsy) is made explicit through `jsTruthy` / `jsOrS`.
-/

/-- JavaScript truthiness of an optional string: `undefined`/absent and
the empty string are falsy, every other string is truthy. -/
def jsTruthy : Option String → Bool
  | some s => s ≠ ""
  | none => false

/-- JavaScript `a || b` for an optional string `a` and a string default
`b`: returns `a`'s value when it is truthy, otherwise `b`. -/
def jsOrS : Option String → String → String
  | some s, d => if s = "" then d else s
  | none, d => d

/-- JavaScript truthiness of an optional number: `undefined` and `0`
are falsy. -/
def jsNatTruthy : Option Nat → Bool
  | some n => n ≠ 0
  | none => false

/-- The last path segment of a character list, ignoring trailing
slashes: the scan in Node's posix `path` routines skips slashes from
the right, then takes characters up to the next slash. -/
def lastSegment (l : List Char) : List Char :=
  ((l.reverse.dropWhile fun c => c = '/').takeWhile fun c => c ≠ '/').reverse

/-- Node `path.basename` (posix, no extension argument), as used by
`uploadFile`/`downloadFile` in src/commands/file.ts: the last path
segment with trailing slashes stripped. -/
def basenameString (s : String) : String :=
  ⟨lastSegment s.data⟩

/-- Node `path.extname` (posix) on the last path segment `b`:
the suffix of `b` from its final dot, except that the result is empty
when `b` has no dot, when the final dot is `b`'s first character, or
when `b` is exactly `".."`.  This is a functional reading of the
index-scanning loop in Node's `lib/path.js`. -/
def extnameCore (b : List Char) : List Char :=
  let r := b.reverse
  let tailRev := r.takeWhile fun c => c ≠ '.'
  match r.dropWhile fun c => c ≠ '.' with
  | [] => []
  | _ :: headRev =>
    if headRev.isEmpty then []
    else if headRev = ['.'] ∧ tailRev.isEmpty then []
    else '.' :: tailRev.reverse

/-- Node `path.extname` on a whole path string. -/
def extname (s : String) : String :=
  ⟨extnameCore (lastSegment s.data)⟩

/-- Character-wise ASCII lowercasing of a string, modelling
`String.prototype.toLowerCase` (they agree on ASCII, which covers
every key of the mime table in src/utils.ts). -/
def asciiLowerStr (s : String) : String :=
  ⟨s.data.map Char.toLower⟩

/-- The extension-to-mime table of `getContentType` in src/utils.ts. -/
def mimeTypes : List (String × String) :=
  [(".jpg", "image/jpeg"),
   (".jpeg", "image/jpeg"),
   (".png", "image/png"),
   (".gif", "image/gif"),
   (".webp", "image/webp"),
   (".pdf", "application/pdf"),
   (".json", "application/json"),
   (".txt", "text/plain"),
   (".mp4", "video/mp4"),
   (".mp3", "audio/mpeg")]

/-- `getContentType` from src/utils.ts: lowercase the `path.extname` of
the filename, look it up in the mime table, and fall back to
`application/octet-stream` (`mimeTypes[ext] || '...'`; every table
value is a nonempty string, so `||` is plain lookup-with-default). -/
def getContentType (filename : String) : String :=
  let ext := asciiLowerStr (extname filename)
  ((mimeTypes.lookup ext).getD "application/octet-stream")

/-- Base-1024 integer logarithm via fuel recursion; the exact-real
model of `Math.floor(Math.log(bytes) / Math.log(1024))` in
`formatBytes` (the floating-point and exact values agree on the inputs
any claim evaluates). -/
def ilog1024Fuel : Nat → Nat → Nat
  | 0, _ => 0
  | fuel + 1, n => if n < 1024 then 0 else ilog1024Fuel fuel (n / 1024) + 1

/-- JavaScript's decimal rendering of `n / 100` for a natural `n`
(`Number.prototype.toString` prints the shortest decimal, so a value
rounded to hundredths prints with at most two fractional digits and no
trailing zeros). -/
def renderHundredths (n : Nat) : String :=
  let ip := n / 100
  let fr := n % 100
  if fr = 0 then toString ip
  else if fr % 10 = 0 then toString ip ++ "." ++ toString (fr / 10)
  else if fr < 10 then toString ip ++ ".0" ++ toString fr
  else toString ip ++ "." ++ toString fr

/-- `formatBytes` from src/utils.ts: `"0 B"` for zero, otherwise divide
by `1024 ^ i` for `i = floor(log_1024 bytes)`, round the mantissa to
two decimals (`Math.round(x * 100) / 100`, i.e. `floor(x * 100 + 1/2)`
over the exact rationals, computed here as a natural division), and
append the unit from `['B','KB','MB','GB','TB']`. -/
def formatBytes (bytes : Nat) : String :=
  if bytes = 0 then "0 B"
  else
    let i := ilog1024Fuel bytes bytes
    let p := 1024 ^ i
    let rounded := (200 * bytes + p) / (2 * p)
    renderHundredths rounded ++ " " ++ (["B", "KB", "MB", "GB", "TB"].getD i "undefined")

/-- A JSON value, the shape of the opaque `data` payloads the external
storage client returns (consumed only by `JSON.stringify`). -/
inductive Jx where
  | null
  | bool (b : Bool)
  | num (n : Int)
  | str (s : String)
  | arr (xs : List Jx)
  | obj (fields : List (String × Jx))

mutual
/-- Modelled from the spec: the presentation layer's JSON serialization
(`JSON.stringify(value, null, 2)`), a platform builtin outside this
repository.  No claim inspects the serialized text, so indentation is
not reproduced; only that a serialization of the result is printed. -/
def jsonStringify : Jx → String
  | .null => "null"
  | .bool b => cond b "true" "false"
  | .num n => toString n
  | .str s => "\"" ++ s ++ "\""
  | .arr xs => "[" ++ jsonStringifyArr xs ++ "]"
  | .obj fs => "\x7b" ++ jsonStringifyObj fs ++ "\x7d"

/-- Serialize the elements of a JSON array, comma separated. -/
def jsonStringifyArr : List Jx → String
  | [] => ""
  | [x] => jsonStringify x
  | x :: y :: xs => jsonStringify x ++ "," ++ jsonStringifyArr (y :: xs)

/-- Serialize the fields of a JSON object, comma separated. -/
def jsonStringifyObj : List (String × Jx) → String
  | [] => ""
  | [(k, v)] => "\"" ++ k ++ "\":" ++ jsonStringify v
  | (k, v) :: y :: xs => "\"" ++ k ++ "\":" ++ jsonStringify v ++ "," ++ jsonStringifyObj (y :: xs)
end

/-- Modelled from the spec: platform date rendering
(`new Date(x).toLocaleString()` in `listFiles`).  No claim depends on
the rendered text, so it is modelled as the identity. -/
def dateLocaleString (s : String) : String := s

/-- The network-performing operations of the external storage client,
one constructor per client method the handlers invoke, carrying the
arguments the handler passes. -/
inductive ClientOp where
  | listBuckets
  | createBucket (name : String) (isPublic : Bool)
  | getBucket (name : String)
  | updateBucket (name : String) (isPublic : Bool)
  | emptyBucket (name : String)
  | deleteBucket (name : String)
  | upload (bucket remotePath : String) (upsert : Bool) (contentType : String)
  | download (bucket remotePath : String)
  | listObjects (bucket pathArg : String) (limit : Nat) (search : Option String)
  | remove (bucket : String) (paths : List String)
  | move (bucket fromPath toPath : String)
  | copy (bucket fromPath toPath : String)
  | infoObj (bucket pathArg : String)
  | existsObj (bucket pathArg : String)
  | updateObj (bucket remotePath : String) (upsert : Bool) (contentType : String)
  | getPublicUrl (bucket pathArg : String) (download : Option String)
  | createSignedUrl (bucket pathArg : String) (expiresIn : Nat) (download : Option String)
  | createSignedUploadUrl (bucket pathArg : String)
  | createSignedUrls (bucket : String) (paths : List String) (expiresIn : Nat) (download : Option String)
deriving DecidableEq, Repr

/-- One observable step of a handler run.  `err` and `info`/`success`/
`out` are the logger channels (the logger module is not under src/;
modelled from the spec: `logger.error` writes the message to the error
channel, the others to ordinary output).  `mkClient` is
`getStorageClient` (client construction, no network), `call` is a
network-performing client operation, `exit` is `process.exit`, and
`fsRead`/`fsWrite` are the local filesystem accesses of
upload/update/download. -/
inductive Eff where
  | err (msg : String)
  | info (msg : String)
  | success (msg : String)
  | out (msg : String)
  | mkClient (url key : String)
  | call (op : ClientOp)
  | exit (code : Nat)
  | fsRead (pathArg : String)
  | fsWrite (pathArg : String)
deriving DecidableEq, Repr

/-- Whether an effect is a network-performing client operation. -/
def isNetCall : Eff → Bool
  | .call _ => true
  | _ => false

/-- The network-performing client operations of a trace, in order. -/
def callsOf (t : List Eff) : List Eff :=
  t.filter isNetCall

/-- The result shape of a fallible storage-client operation:
`{ data, error }` with `error` null on success.  (On failure the
client nulls `data`; the model keeps a value of the data type there,
which no handler reads on the error path except `exists`, whose
`data` is the boolean the client produced.) -/
structure Resp (α : Type) where
  data : α
  error : Option String

/-- A bucket descriptor as rendered by `listBuckets`/`getBucket`
(src/commands/bucket.ts). -/
structure BucketInfo where
  name : String
  id : String
  isPublic : Bool
  created_at : String
  updated_at : String
  file_size_limit : Option Nat
  allowed_mime_types : Option (List String)

/-- A file listing entry as rendered by `listFiles`/`deleteFiles`
(src/commands/file.ts); `metadata.size` drives the size suffix. -/
structure FileEntry where
  id : Option String
  name : String
  updated_at : Option String
  size : Option Nat

/-- The object metadata block of a `client.info` response. -/
structure InfoMeta where
  size : Option Nat
  mimetype : Option String
  cacheControl : Option String
  eTag : Option String

/-- A `client.info` response payload as rendered by `getFileInfo`. -/
structure FileInfoData where
  name : String
  id : String
  bucketId : String
  metadata : Option InfoMeta
  createdAt : String
  updatedAt : String
  lastAccessedAt : Option String

/-- An upload/update response payload (`data.path`). -/
structure UploadData where
  pathArg : String

/-- A `createSignedUploadUrl` response payload. -/
structure SignedUploadData where
  pathArg : String
  token : String
  signedUrl : String

/-- One entry of a `createSignedUrls` response: per-path success or
error (`item.error` is a message string when that path failed). -/
structure SignedItem where
  pathArg : String
  signedUrl : String
  error : Option String

/-- The `bucket` group's action token, the TS union
`'list' | 'create' | 'get' | 'update' | 'empty' | 'delete'`
(src/commands/bucket.ts).  The yargs `choices` constraint rejects any
other token before the handler runs, so the switch's `default` branch
is unreachable and not modelled. -/
inductive BucketAction where
  | list | create | get | update | empty | delete
deriving DecidableEq, Repr

/-- The parsed `BucketArguments` record after yargs applies the builder
defaults (src/commands/bucket.ts).  `isPublic` is the `--public` flag
(absent when not given), `name` the optional positional. -/
structure BucketArgs where
  action : BucketAction
  name : Option String
  isPublic : Option Bool
  url : String
  key : String
  json : Bool

/-- The mocked responses of the bucket-level client operations, one
per method the bucket handler can invoke. -/
structure BucketResps where
  listBuckets : Resp (List BucketInfo)
  createBucket : Resp Jx
  getBucket : Resp BucketInfo
  updateBucket : Resp Jx
  emptyBucket : Resp (Option Jx)
  deleteBucket : Resp (Option Jx)

namespace Bucket

/-- The text rendering of one bucket line in `listBuckets`:
visibility marker plus name, and an optional size-limit line. -/
def bucketLine (b : BucketInfo) : List Eff :=
  let visibility := if b.isPublic then "🌐 Public" else "🔒 Private"
  [Eff.out ("  " ++ visibility ++ "  " ++ b.name)] ++
    (match b.file_size_limit with
     | some n => if n ≠ 0 then [Eff.out ("    └─ Size Limit: " ++ formatBytes n)] else []
     | none => [])

/-- JSON encoding of a bucket descriptor for the `--json` branch. -/
def jxOfBucket (b : BucketInfo) : Jx :=
  Jx.obj [("name", Jx.str b.name), ("id", Jx.str b.id), ("public", Jx.bool b.isPublic),
          ("created_at", Jx.str b.created_at), ("updated_at", Jx.str b.updated_at)]

/-- `listBuckets` from src/commands/bucket.ts: one `listBuckets` call;
on error the error is thrown (second component), otherwise JSON or a
header plus one line group per bucket. -/
def listBuckets (r : Resp (List BucketInfo)) (asJson : Bool) : List Eff × Option String :=
  match r.error with
  | some e => ([Eff.call ClientOp.listBuckets], some e)
  | none =>
    ([Eff.call ClientOp.listBuckets] ++
      (if asJson then [Eff.out (jsonStringify (Jx.arr (r.data.map jxOfBucket)))]
       else [Eff.out ("\n📦 Buckets (" ++ toString r.data.length ++ ")\n")] ++
         r.data.flatMap bucketLine), none)

/-- `createBucket` from src/commands/bucket.ts; `isPublic` already has
the TS default-parameter value `false` applied when the flag was
absent. -/
def createBucket (name : String) (isPublic : Bool) (asJson : Bool) (r : Resp Jx) :
    List Eff × Option String :=
  match r.error with
  | some e => ([Eff.call (ClientOp.createBucket name isPublic)], some e)
  | none =>
    ([Eff.call (ClientOp.createBucket name isPublic),
      Eff.success ("Bucket created: " ++ name)] ++
      (if asJson then [Eff.out (jsonStringify r.data)] else []), none)

/-- `getBucket` from src/commands/bucket.ts. -/
def getBucket (name : String) (asJson : Bool) (r : Resp BucketInfo) :
    List Eff × Option String :=
  match r.error with
  | some e => ([Eff.call (ClientOp.getBucket name)], some e)
  | none =>
    ([Eff.call (ClientOp.getBucket name)] ++
      (if asJson then [Eff.out (jsonStringify (jxOfBucket r.data))]
       else
         [Eff.out ("\n📦 Bucket: " ++ r.data.name ++ "\n"),
          Eff.out ("  ID:          " ++ r.data.id),
          Eff.out ("  Public:      " ++ (if r.data.isPublic then "🌐 Yes" else "🔒 No")),
          Eff.out ("  Created:     " ++ r.data.created_at),
          Eff.out ("  Updated:     " ++ r.data.updated_at)] ++
         (match r.data.file_size_limit with
          | some n => if n ≠ 0 then [Eff.out ("  Size Limit:  " ++ formatBytes n)] else []
          | none => []) ++
         (match r.data.allowed_mime_types with
          | some ts => [Eff.out ("  MIME Types:  " ++ String.intercalate ", " ts)]
          | none => [])), none)

/-- `updateBucket` from src/commands/bucket.ts: an absent `--public`
flag (`isPublic === undefined`) is an error thrown before any client
call. -/
def updateBucket (name : String) (isPublic : Option Bool) (asJson : Bool) (r : Resp Jx) :
    List Eff × Option String :=
  match isPublic with
  | none => ([], some "--public flag required for update")
  | some p =>
    match r.error with
    | some e => ([Eff.call (ClientOp.updateBucket name p)], some e)
    | none =>
      ([Eff.call (ClientOp.updateBucket name p),
        Eff.success ("Bucket updated: " ++ name)] ++
        (if asJson then [Eff.out (jsonStringify r.data)] else []), none)

/-- `emptyBucket` from src/commands/bucket.ts. -/
def emptyBucket (name : String) (r : Resp (Option Jx)) : List Eff × Option String :=
  match r.error with
  | some e => ([Eff.call (ClientOp.emptyBucket name)], some e)
  | none => ([Eff.call (ClientOp.emptyBucket name), Eff.success ("Bucket emptied: " ++ name)], none)

/-- `deleteBucket` from src/commands/bucket.ts. -/
def deleteBucket (name : String) (r : Resp (Option Jx)) : List Eff × Option String :=
  match r.error with
  | some e => ([Eff.call (ClientOp.deleteBucket name)], some e)
  | none => ([Eff.call (ClientOp.deleteBucket name), Eff.success ("Bucket deleted: " ++ name)], none)

/-- The `bucket` handler (src/commands/bucket.ts): missing-credential
fast path, client construction, the action switch (each `create`/`get`
/`update`/`empty`/`delete` arm first checks `!name`), and the
catch-all that prints a thrown message to the error channel and exits
with status 1. -/
def handler (a : BucketArgs) (r : BucketResps) : List Eff :=
  if a.key = "" then
    [Eff.err "Storage key not set", Eff.info "Set STORAGE_SERVICE_KEY or use --key option",
     Eff.exit 1]
  else
    Eff.mkClient a.url a.key ::
    (let res :=
      match a.action with
      | BucketAction.list => listBuckets r.listBuckets a.json
      | BucketAction.create =>
        if jsTruthy a.name then createBucket (a.name.getD "") (a.isPublic.getD false) a.json r.createBucket
        else ([], some "Bucket name required")
      | BucketAction.get =>
        if jsTruthy a.name then getBucket (a.name.getD "") a.json r.getBucket
        else ([], some "Bucket name required")
      | BucketAction.update =>
        if jsTruthy a.name then updateBucket (a.name.getD "") a.isPublic a.json r.updateBucket
        else ([], some "Bucket name required")
      | BucketAction.empty =>
        if jsTruthy a.name then emptyBucket (a.name.getD "") r.emptyBucket
        else ([], some "Bucket name required")
      | BucketAction.delete =>
        if jsTruthy a.name then deleteBucket (a.name.getD "") r.deleteBucket
        else ([], some "Bucket name required")
    res.1 ++ (match res.2 with
              | some msg => [Eff.err msg, Eff.exit 1]
              | none => []))

end Bucket

/-- The `file` group's action token, the TS union type of
`FileArguments.action` (src/commands/file.ts); other tokens are
rejected by the yargs `choices` constraint before the handler runs, so
the switch's `default` branch is unreachable and not modelled. -/
inductive FileAction where
  | upload | download | list | delete | move | copy | info | exists | update
deriving DecidableEq, Repr

/-- The parsed `FileArguments` record after yargs applies the builder
defaults (src/commands/file.ts).  `args` is the catch-all positional
list (absent when no extra positionals were given); `pfx` is the
`--prefix` flag and `fromArg`/`toArg` are `--from`/`--to` (renamed
because the source names are reserved in Lean). -/
structure FileArgs where
  action : FileAction
  bucket : String
  args : Option (List String)
  file : Option String
  pathArg : Option String
  output : Option String
  fromArg : Option String
  toArg : Option String
  pfx : Option String
  limit : Nat
  search : Option String
  upsert : Bool
  url : String
  key : String
  json : Bool

/-- The mocked responses of the object-level client operations the
file handler can invoke. -/
structure FileResps where
  upload : Resp UploadData
  download : Resp Nat
  listObjects : Resp (List FileEntry)
  remove : Resp (List FileEntry)
  move : Resp Jx
  copy : Resp Jx
  infoObj : Resp FileInfoData
  existsObj : Resp Bool
  updateObj : Resp UploadData

/-- The path-flag-or-first-positional resolution shared by the
`download`, `info` and `exists` arms of the file handler:
`remotePath || pathsFromArgs[0]` (JavaScript `||`, so an absent or
empty `--path` falls through to the first extra positional, which is
absent when the list is empty). -/
def actualPathOf (remotePath : Option String) (posArgs : List String) : Option String :=
  if jsTruthy remotePath then remotePath else posArgs.head?

namespace FileCmd

/-- JSON encoding of one file listing entry for the `--json` branch. -/
def jxOfEntry (f : FileEntry) : Jx :=
  Jx.obj [("id", match f.id with | some i => Jx.str i | none => Jx.null),
          ("name", Jx.str f.name),
          ("updated_at", match f.updated_at with | some u => Jx.str u | none => Jx.null),
          ("metadata", match f.size with | some n => Jx.obj [("size", Jx.num n)] | none => Jx.null)]

/-- `uploadFile` from src/commands/file.ts: destination defaults to
`path.basename` of the local file when `--path` is absent or empty
(`remotePath || path.basename(filePath)`); one `upload` call with the
upsert flag and the content type inferred from the local file name.
`fsz` is `fs.statSync(filePath).size`; the `fsRead` effect stands for
`fs.readFileSync`/`fs.statSync`. -/
def uploadFile (bucket filePath : String) (remotePath : Option String) (upsert asJson : Bool)
    (fsz : Nat) (r : Resp UploadData) : List Eff × Option String :=
  let fileName := jsOrS remotePath (basenameString filePath)
  let pre := [Eff.fsRead filePath,
              Eff.info ("Uploading " ++ formatBytes fsz ++ "..."),
              Eff.call (ClientOp.upload bucket fileName upsert (getContentType filePath))]
  match r.error with
  | some e => (pre, some e)
  | none =>
    (pre ++ [Eff.success ("Uploaded: " ++ bucket ++ "/" ++ r.data.pathArg)] ++
      (if asJson then [Eff.out (jsonStringify (Jx.obj [("path", Jx.str r.data.pathArg)]))] else []),
     none)

/-- `downloadFile` from src/commands/file.ts: one `download` call; the
local output path defaults to the basename of the remote path; the
blob is written to disk and its byte length reported.  The unused
`asJson` parameter mirrors the source's `_asJson`. -/
def downloadFile (bucket remotePath : String) (outputPath : Option String) (_asJson : Bool)
    (r : Resp Nat) : List Eff × Option String :=
  let pre := [Eff.info "Downloading...", Eff.call (ClientOp.download bucket remotePath)]
  match r.error with
  | some e => (pre, some e)
  | none =>
    let output := jsOrS outputPath (basenameString remotePath)
    (pre ++ [Eff.fsWrite output,
             Eff.success ("Downloaded: " ++ output ++ " (" ++ formatBytes r.data ++ ")")], none)

/-- The text rendering of one entry in `listFiles`: icon by `file.id`
truthiness, optional size suffix, optional updated-at line. -/
def entryLines (f : FileEntry) : List Eff :=
  let icon := if jsTruthy f.id then "📄" else "📁"
  let sizeSuffix :=
    match f.size with
    | some n => if n ≠ 0 then " (" ++ formatBytes n ++ ")" else ""
    | none => ""
  [Eff.out ("  " ++ icon ++ " " ++ f.name ++ sizeSuffix)] ++
    (match f.updated_at with
     | some u => if u ≠ "" then [Eff.out ("     └─ Updated: " ++ dateLocaleString u)] else []
     | none => [])

/-- `listFiles` from src/commands/file.ts: one `list` call with
`prefix || ''`, the limit and the search term; JSON or a header plus
one line group per entry. -/
def listFiles (bucket : String) (pfx : Option String) (limit : Nat) (search : Option String)
    (asJson : Bool) (r : Resp (List FileEntry)) : List Eff × Option String :=
  let pre := [Eff.call (ClientOp.listObjects bucket (jsOrS pfx "") limit search)]
  match r.error with
  | some e => (pre, some e)
  | none =>
    (pre ++
      (if asJson then [Eff.out (jsonStringify (Jx.arr (r.data.map jxOfEntry)))]
       else
         [Eff.out ("\n📂 Files in " ++ bucket ++
           (if jsTruthy pfx then "/" ++ pfx.getD "" else "") ++
           " (" ++ toString r.data.length ++ ")\n")] ++
         r.data.flatMap entryLines), none)

/-- `deleteFiles` from src/commands/file.ts: a single `remove` call
whose argument is the positional path list in command-line order; the
success report counts the entries the client returned. -/
def deleteFiles (bucket : String) (paths : List String) (asJson : Bool)
    (r : Resp (List FileEntry)) : List Eff × Option String :=
  let pre := [Eff.info ("Deleting " ++ toString paths.length ++ " file(s)..."),
              Eff.call (ClientOp.remove bucket paths)]
  match r.error with
  | some e => (pre, some e)
  | none =>
    (pre ++ [Eff.success ("Deleted " ++ toString r.data.length ++ " file(s)")] ++
      (if asJson then [Eff.out (jsonStringify (Jx.arr (r.data.map jxOfEntry)))]
       else r.data.flatMap fun f => [Eff.out ("  ✓ " ++ f.name)]), none)

/-- `moveFile` from src/commands/file.ts. -/
def moveFile (bucket fromPath toPath : String) (asJson : Bool) (r : Resp Jx) :
    List Eff × Option String :=
  match r.error with
  | some e => ([Eff.call (ClientOp.move bucket fromPath toPath)], some e)
  | none =>
    ([Eff.call (ClientOp.move bucket fromPath toPath),
      Eff.success ("Moved: " ++ fromPath ++ " → " ++ toPath)] ++
      (if asJson then [Eff.out (jsonStringify r.data)] else []), none)

/-- `copyFile` from src/commands/file.ts. -/
def copyFile (bucket fromPath toPath : String) (asJson : Bool) (r : Resp Jx) :
    List Eff × Option String :=
  match r.error with
  | some e => ([Eff.call (ClientOp.copy bucket fromPath toPath)], some e)
  | none =>
    ([Eff.call (ClientOp.copy bucket fromPath toPath),
      Eff.success ("Copied: " ++ fromPath ++ " → " ++ toPath)] ++
      (if asJson then [Eff.out (jsonStringify r.data)] else []), none)

/-- `getFileInfo` from src/commands/file.ts: one `info` call; JSON or a
fixed block of detail lines (`metadata?.size || 0`,
`metadata?.mimetype || 'unknown'`, `lastAccessedAt || 'N/A'`, and
cache-control / eTag lines only when those fields are truthy). -/
def getFileInfo (bucket filePath : String) (asJson : Bool) (r : Resp FileInfoData) :
    List Eff × Option String :=
  let pre := [Eff.info "Getting file info...", Eff.call (ClientOp.infoObj bucket filePath)]
  match r.error with
  | some e => (pre, some e)
  | none =>
    let d := r.data
    (pre ++
      (if asJson then
        [Eff.out (jsonStringify (Jx.obj [("name", Jx.str d.name), ("id", Jx.str d.id),
                                          ("bucketId", Jx.str d.bucketId)]))]
       else
        [Eff.out ("\n📄 File: " ++ d.name ++ "\n"),
         Eff.out ("  ID:             " ++ d.id),
         Eff.out ("  Bucket:         " ++ d.bucketId),
         Eff.out ("  Size:           " ++
           formatBytes (match d.metadata with | some m => m.size.getD 0 | none => 0)),
         Eff.out ("  Content Type:   " ++
           jsOrS (match d.metadata with | some m => m.mimetype | none => none) "unknown"),
         Eff.out ("  Created:        " ++ d.createdAt),
         Eff.out ("  Updated:        " ++ d.updatedAt),
         Eff.out ("  Last Accessed:  " ++ jsOrS d.lastAccessedAt "N/A")] ++
        (match d.metadata with
         | some m =>
           (if jsTruthy m.cacheControl
            then [Eff.out ("  Cache Control:  " ++ m.cacheControl.getD "")] else []) ++
           (if jsTruthy m.eTag
            then [Eff.out ("  ETag:           " ++ m.eTag.getD "")] else [])
         | none => [])), none)

/-- `checkFileExists` from src/commands/file.ts: one `exists` call.
Unlike every other helper of this module it never throws: there is no
`if (error) throw error`.  In JSON mode it prints
`{ exists: data, error: error?.message || null }`; in text mode a
falsy `data` — including the error case — is reported as the file not
existing. -/
def checkFileExists (bucket filePath : String) (asJson : Bool) (r : Resp Bool) :
    List Eff × Option String :=
  ([Eff.call (ClientOp.existsObj bucket filePath)] ++
    (if asJson then
      [Eff.out (jsonStringify (Jx.obj
        [("exists", Jx.bool r.data),
         ("error", match r.error with
                   | some m => if m = "" then Jx.null else Jx.str m
                   | none => Jx.null)]))]
     else if r.data then [Eff.success ("File exists: " ++ filePath)]
     else [Eff.info ("File does not exist: " ++ filePath)]), none)

/-- `updateFile` from src/commands/file.ts: one `update` call at the
explicitly supplied remote path (the handler has already rejected an
absent `--path`). -/
def updateFile (bucket filePath remotePath : String) (upsert asJson : Bool) (fsz : Nat)
    (r : Resp UploadData) : List Eff × Option String :=
  let pre := [Eff.fsRead filePath,
              Eff.info ("Updating " ++ formatBytes fsz ++ "..."),
              Eff.call (ClientOp.updateObj bucket remotePath upsert (getContentType filePath))]
  match r.error with
  | some e => (pre, some e)
  | none =>
    (pre ++ [Eff.success ("Updated: " ++ bucket ++ "/" ++ r.data.pathArg)] ++
      (if asJson then [Eff.out (jsonStringify (Jx.obj [("path", Jx.str r.data.pathArg)]))] else []),
     none)

/-- The action switch of the file handler (the body of the `try`
block): per-action validation throws (second component) before the
corresponding helper performs its single client call. -/
def dispatch (a : FileArgs) (fsz : Nat) (r : FileResps) : List Eff × Option String :=
  match a.action with
  | FileAction.upload =>
    if jsTruthy a.file then uploadFile a.bucket (a.file.getD "") a.pathArg a.upsert a.json fsz r.upload
    else ([], some "File path required (use --file)")
  | FileAction.download =>
    let actualPath := actualPathOf a.pathArg (a.args.getD [])
    if jsTruthy actualPath then downloadFile a.bucket (actualPath.getD "") a.output a.json r.download
    else ([], some "Remote path required (use --path or provide as argument)")
  | FileAction.list => listFiles a.bucket a.pfx a.limit a.search a.json r.listObjects
  | FileAction.delete =>
    let paths := a.args.getD []
    if paths.isEmpty then ([], some "At least one path required")
    else deleteFiles a.bucket paths a.json r.remove
  | FileAction.move =>
    if !jsTruthy a.fromArg || !jsTruthy a.toArg then ([], some "Both --from and --to required")
    else moveFile a.bucket (a.fromArg.getD "") (a.toArg.getD "") a.json r.move
  | FileAction.copy =>
    if !jsTruthy a.fromArg || !jsTruthy a.toArg then ([], some "Both --from and --to required")
    else copyFile a.bucket (a.fromArg.getD "") (a.toArg.getD "") a.json r.copy
  | FileAction.info =>
    let actualPath := actualPathOf a.pathArg (a.args.getD [])
    if jsTruthy actualPath then getFileInfo a.bucket (actualPath.getD "") a.json r.infoObj
    else ([], some "File path required (use --path or provide as argument)")
  | FileAction.exists =>
    let actualPath := actualPathOf a.pathArg (a.args.getD [])
    if jsTruthy actualPath then checkFileExists a.bucket (actualPath.getD "") a.json r.existsObj
    else ([], some "File path required (use --path or provide as argument)")
  | FileAction.update =>
    if jsTruthy a.file then
      if jsTruthy a.pathArg then
        updateFile a.bucket (a.file.getD "") (a.pathArg.getD "") a.upsert a.json fsz r.updateObj
      else ([], some "Remote path required (use --path to specify destination)")
    else ([], some "File path required (use --file)")

/-- The `file` handler (src/commands/file.ts): missing-credential fast
path, `!bucket` check, client construction, the action switch, and
the catch-all printing a thrown message to the error channel and
exiting with status 1. -/
def handler (a : FileArgs) (fsz : Nat) (r : FileResps) : List Eff :=
  if a.key = "" then
    [Eff.err "Storage key not set", Eff.info "Set STORAGE_SERVICE_KEY or use --key option",
     Eff.exit 1]
  else if a.bucket = "" then
    [Eff.err "Bucket name required", Eff.exit 1]
  else
    Eff.mkClient a.url a.key ::
    (let res := dispatch a fsz r
     res.1 ++ (match res.2 with
               | some msg => [Eff.err msg, Eff.exit 1]
               | none => []))

end FileCmd

/-- The `url` group's action token, the TS union type of
`UrlArguments.action` (src/commands/url.ts); other tokens are rejected
by the yargs `choices` constraint before the handler runs. -/
inductive UrlAction where
  | publicUrl | signed | signedUpload | signedUrls
deriving DecidableEq, Repr

/-- The parsed `UrlArguments` record after yargs applies the builder
defaults (src/commands/url.ts).  `pathArg` is the optional `[path]`
positional, `args` the catch-all positional list, `download` the
`--download` flag (a string option, absent when not given). -/
structure UrlArgs where
  action : UrlAction
  bucket : String
  pathArg : Option String
  args : Option (List String)
  expires : Nat
  download : Option String
  url : String
  key : String
  json : Bool

/-- The mocked responses of the URL-generating client operations.
`getPublicUrl` is infallible (it returns `{ data }` with no error
field), so only the URL string is mocked for it. -/
structure UrlResps where
  publicUrl : String
  signedUrl : Resp String
  signedUpload : Resp SignedUploadData
  signedUrls : Resp (List SignedItem)

namespace Url

/-- `getPublicUrl` from src/commands/url.ts: one infallible
`getPublicUrl` call (the `download` option is forwarded only when the
flag was given); JSON or a URL block, with a download-mode line only
when the flag is truthy. -/
def getPublicUrl (bucket filePath : String) (download : Option String) (asJson : Bool)
    (publicUrl : String) : List Eff × Option String :=
  ([Eff.call (ClientOp.getPublicUrl bucket filePath download)] ++
    (if asJson then [Eff.out (jsonStringify (Jx.obj [("publicUrl", Jx.str publicUrl)]))]
     else
       [Eff.out "\n🔗 Public URL:\n", Eff.out ("  " ++ publicUrl)] ++
       (if jsTruthy download
        then [Eff.out ("  (Download mode: " ++ download.getD "" ++ ")")] else [])), none)

/-- `getSignedUrl` from src/commands/url.ts: one `createSignedUrl`
call with the expiry. -/
def getSignedUrl (bucket filePath : String) (expiresIn : Nat) (download : Option String)
    (asJson : Bool) (r : Resp String) : List Eff × Option String :=
  let pre := [Eff.call (ClientOp.createSignedUrl bucket filePath expiresIn download)]
  match r.error with
  | some e => (pre, some e)
  | none =>
    (pre ++
      (if asJson then [Eff.out (jsonStringify (Jx.obj [("signedUrl", Jx.str r.data)]))]
       else
         [Eff.out ("\n🔐 Signed URL (expires in " ++ toString expiresIn ++ "s):\n"),
          Eff.out ("  " ++ r.data)]), none)

/-- `getSignedUploadUrl` from src/commands/url.ts. -/
def getSignedUploadUrl (bucket filePath : String) (asJson : Bool) (r : Resp SignedUploadData) :
    List Eff × Option String :=
  let pre := [Eff.call (ClientOp.createSignedUploadUrl bucket filePath)]
  match r.error with
  | some e => (pre, some e)
  | none =>
    (pre ++
      (if asJson then
        [Eff.out (jsonStringify (Jx.obj [("path", Jx.str r.data.pathArg),
                                          ("token", Jx.str r.data.token),
                                          ("signedUrl", Jx.str r.data.signedUrl)]))]
       else
         [Eff.out "\n🔐 Signed Upload URL:\n",
          Eff.out ("  Path:  " ++ r.data.pathArg),
          Eff.out ("  Token: " ++ r.data.token),
          Eff.out ("  Signed URL: " ++ r.data.signedUrl)]), none)

/-- The text rendering of one `createSignedUrls` result entry: a
failure marker with the message when `item.error` is truthy, otherwise
a success marker followed by the signed URL. -/
def signedItemLines (it : SignedItem) : List Eff :=
  if jsTruthy it.error then
    [Eff.out ("  ✗ " ++ it.pathArg ++ ": " ++ it.error.getD "")]
  else
    [Eff.out ("  ✓ " ++ it.pathArg), Eff.out ("    " ++ it.signedUrl)]

/-- JSON encoding of one `createSignedUrls` result entry. -/
def jxOfSignedItem (it : SignedItem) : Jx :=
  Jx.obj [("path", Jx.str it.pathArg),
          ("signedUrl", Jx.str it.signedUrl),
          ("error", match it.error with | some e => Jx.str e | none => Jx.null)]

/-- `getSignedUrls` from src/commands/url.ts: one `createSignedUrls`
call carrying the whole path list and the expiry; in text mode one
marker group per returned entry followed by the
`successCount/total URLs generated successfully` tally, where
`successCount` counts the entries whose `error` is not truthy. -/
def getSignedUrls (bucket : String) (filePaths : List String) (expiresIn : Nat)
    (download : Option String) (asJson : Bool) (r : Resp (List SignedItem)) :
    List Eff × Option String :=
  let pre := [Eff.info ("Creating signed URLs for " ++ toString filePaths.length ++ " file(s)..."),
              Eff.call (ClientOp.createSignedUrls bucket filePaths expiresIn download)]
  match r.error with
  | some e => (pre, some e)
  | none =>
    (pre ++
      (if asJson then [Eff.out (jsonStringify (Jx.arr (r.data.map jxOfSignedItem)))]
       else
         let successCount := (r.data.filter fun it => !jsTruthy it.error).length
         [Eff.out ("\n🔐 Signed URLs (expires in " ++ toString expiresIn ++ "s):\n")] ++
         r.data.flatMap signedItemLines ++
         [Eff.success ("\n" ++ toString successCount ++ "/" ++ toString r.data.length ++
           " URLs generated successfully")]), none)

/-- The `url` handler (src/commands/url.ts): missing-credential fast
path, `!bucket` check, client construction, the action switch (for
`signed-urls` the path list is the optional `[path]` positional, when
truthy, followed by the catch-all positionals), and the catch-all
printing a thrown message to the error channel and exiting with
status 1. -/
def handler (a : UrlArgs) (r : UrlResps) : List Eff :=
  if a.key = "" then
    [Eff.err "Storage key not set", Eff.info "Set STORAGE_SERVICE_KEY or use --key option",
     Eff.exit 1]
  else if a.bucket = "" then
    [Eff.err "Bucket name required", Eff.exit 1]
  else
    Eff.mkClient a.url a.key ::
    (let res :=
      match a.action with
      | UrlAction.publicUrl =>
        if jsTruthy a.pathArg then getPublicUrl a.bucket (a.pathArg.getD "") a.download a.json r.publicUrl
        else ([], some "Path required for public URL")
      | UrlAction.signed =>
        if jsTruthy a.pathArg then
          getSignedUrl a.bucket (a.pathArg.getD "") a.expires a.download a.json r.signedUrl
        else ([], some "Path required for signed URL")
      | UrlAction.signedUpload =>
        if jsTruthy a.pathArg then getSignedUploadUrl a.bucket (a.pathArg.getD "") a.json r.signedUpload
        else ([], some "Path required for signed upload URL")
      | UrlAction.signedUrls =>
        let paths := (if jsTruthy a.pathArg then [a.pathArg.getD ""] else []) ++ a.args.getD []
        if paths.isEmpty then ([], some "At least one path required for signed URLs")
        else getSignedUrls a.bucket paths a.expires a.download a.json r.signedUrls
    res.1 ++ (match res.2 with
              | some msg => [Eff.err msg, Eff.exit 1]
              | none => []))

end Url

/-- The credential resolution of every builder (src/commands/*.ts):
the `--key` flag when given, else `process.env.STORAGE_SERVICE_KEY`,
else the empty string (`process.env.STORAGE_SERVICE_KEY || ''` as the
yargs default). -/
def resolveKey (flag envKey : Option String) : String :=
  match flag with
  | some k => k
  | none => jsOrS envKey ""

/-- The expiry resolution of the url builder (src/commands/url.ts):
the `--expires` flag when given, else the yargs default `3600`. -/
def resolveExpires (flag : Option Nat) : Nat :=
  flag.getD 3600

@[simp] theorem callsOf_nil : callsOf [] = [] := rfl

@[simp] theorem callsOf_cons_err (m : String) (t : List Eff) :
    callsOf (Eff.err m :: t) = callsOf t := rfl

@[simp] theorem callsOf_cons_info (m : String) (t : List Eff) :
    callsOf (Eff.info m :: t) = callsOf t := rfl

@[simp] theorem callsOf_cons_success (m : String) (t : List Eff) :
    callsOf (Eff.success m :: t) = callsOf t := rfl

@[simp] theorem callsOf_cons_out (m : String) (t : List Eff) :
    callsOf (Eff.out m :: t) = callsOf t := rfl

@[simp] theorem callsOf_cons_mkClient (u k : String) (t : List Eff) :
    callsOf (Eff.mkClient u k :: t) = callsOf t := rfl

@[simp] theorem callsOf_cons_exit (c : Nat) (t : List Eff) :
    callsOf (Eff.exit c :: t) = callsOf t := rfl

@[simp] theorem callsOf_cons_fsRead (p : String) (t : List Eff) :
    callsOf (Eff.fsRead p :: t) = callsOf t := rfl

@[simp] theorem callsOf_cons_fsWrite (p : String) (t : List Eff) :
    callsOf (Eff.fsWrite p :: t) = callsOf t := rfl

@[simp] theorem callsOf_cons_call (op : ClientOp) (t : List Eff) :
    callsOf (Eff.call op :: t) = Eff.call op :: callsOf t := rfl

@[simp] theorem callsOf_append (s t : List Eff) :
    callsOf (s ++ t) = callsOf s ++ callsOf t := by
  simp [callsOf, List.filter_append]

@[simp] theorem callsOf_ite (c : Prop) [Decidable c] (s t : List Eff) :
    callsOf (if c then s else t) = if c then callsOf s else callsOf t :=
  apply_ite callsOf c s t

@[simp] theorem callsOf_flatMap {α : Type} (l : List α) (g : α → List Eff)
    (h : ∀ x, callsOf (g x) = []) : callsOf (l.flatMap g) = [] := by
  induction l with
  | nil => rfl
  | cons x xs ih => rw [List.flatMap_cons, callsOf_append, h x, ih]; rfl

@[simp] theorem callsOf_bucketLine (b : BucketInfo) : callsOf (Bucket.bucketLine b) = [] := by
  rcases b with ⟨nm, i, p, c, u, fsl, mt⟩
  rcases fsl with _ | n <;> simp [Bucket.bucketLine]

@[simp] theorem callsOf_entryLines (f : FileEntry) : callsOf (FileCmd.entryLines f) = [] := by
  rcases f with ⟨i, nm, u, s⟩
  rcases u with _ | u <;> rcases s with _ | n <;> simp [FileCmd.entryLines]

@[simp] theorem callsOf_signedItemLines (it : SignedItem) :
    callsOf (Url.signedItemLines it) = [] := by
  simp [Url.signedItemLines]

/-- A concrete bucket descriptor used by witness instantiations. -/
def sampleBucketInfo : BucketInfo :=
  ⟨"photos", "photos-id", true, "2024-01-01", "2024-01-02", none, none⟩

/-- A concrete `client.info` payload used by witness instantiations. -/
def sampleFileInfoData : FileInfoData :=
  ⟨"a.txt", "id-1", "b", none, "2024-01-01", "2024-01-02", none⟩

/-- A bucket-client response set in which every operation carries the
given error (or none). -/
def bucketRespsWith (e : Option String) : BucketResps :=
  { listBuckets := ⟨[sampleBucketInfo], e⟩
    createBucket := ⟨Jx.null, e⟩
    getBucket := ⟨sampleBucketInfo, e⟩
    updateBucket := ⟨Jx.null, e⟩
    emptyBucket := ⟨none, e⟩
    deleteBucket := ⟨none, e⟩ }

/-- A file-client response set in which every operation carries the
given error (or none). -/
def fileRespsWith (e : Option String) : FileResps :=
  { upload := ⟨⟨"a.txt"⟩, e⟩
    download := ⟨4, e⟩
    listObjects := ⟨[], e⟩
    remove := ⟨[⟨some "id-1", "a.txt", none, none⟩], e⟩
    move := ⟨Jx.null, e⟩
    copy := ⟨Jx.null, e⟩
    infoObj := ⟨sampleFileInfoData, e⟩
    existsObj := ⟨false, e⟩
    updateObj := ⟨⟨"a.txt"⟩, e⟩ }

/-- A url-client response set in which every fallible operation
carries the given error (or none). -/
def urlRespsWith (e : Option String) : UrlResps :=
  { publicUrl := "http://pub/a.txt"
    signedUrl := ⟨"http://signed/a.txt", e⟩
    signedUpload := ⟨⟨"a.txt", "tok", "http://up/a.txt"⟩, e⟩
    signedUrls := ⟨[⟨"a.txt", "http://signed/a.txt", none⟩], e⟩ }

/-- C8: `formatBytes` maps 0 to "0 B", 1024 to "1 KB", 1536 to
"1.5 KB" and 1073741824 to "1 GB" — the 1024-based unit power is
divided out and the mantissa rounded to at most two decimal places
before the unit is appended. -/
theorem c8_formatBytes_values :
    formatBytes 0 = "0 B" ∧ formatBytes 1024 = "1 KB" ∧
    formatBytes 1536 = "1.5 KB" ∧ formatBytes 1073741824 = "1 GB" := by
  decide

/-- C9: `getContentType` is case-insensitive on the extension (its
result depends only on the ASCII-lowercased `path.extname` of the
filename), returns `application/octet-stream` whenever that lowercased
extension has no entry in the mime table (which covers unrecognized
extensions and filenames without an extension), and in particular maps
"PHOTO.JPG" to "image/jpeg" and "noextension" to
"application/octet-stream". -/
theorem c9_getContentType_case_insensitive :
    (∀ s t : String, asciiLowerStr (extname s) = asciiLowerStr (extname t) →
      getContentType s = getContentType t) ∧
    (∀ s : String, mimeTypes.lookup (asciiLowerStr (extname s)) = none →
      getContentType s = "application/octet-stream") ∧
    getContentType "PHOTO.JPG" = "image/jpeg" ∧
    getContentType "noextension" = "application/octet-stream" := by
  refine ⟨?_, ?_, by decide, by decide⟩
  · intro s t h
    simp only [getContentType, h]
  · intro s h
    simp only [getContentType, h, Option.getD_none]

/-- Witness for C9: the case-insensitivity clause applied to
"PHOTO.JPG" versus "photo.jpg" and the default clause applied to
"file.unknown". -/
theorem c9_witness :
    (asciiLowerStr (extname "PHOTO.JPG") = asciiLowerStr (extname "photo.jpg") ∧
      getContentType "PHOTO.JPG" = getContentType "photo.jpg") ∧
    (mimeTypes.lookup (asciiLowerStr (extname "file.unknown")) = none ∧
      getContentType "file.unknown" = "application/octet-stream") := by
  exact ⟨⟨by decide, c9_getContentType_case_insensitive.1 _ _ (by decide)⟩,
         ⟨by decide, c9_getContentType_case_insensitive.2.1 _ (by decide)⟩⟩

/-- C3: `bucket update <name>` without the `--public` flag fails with
an error and performs no client call, while `bucket create <name>`
without the flag succeeds, passing `public: false` in its single
`createBucket` call. -/
theorem c3_bucket_visibility_flag :
    (∀ (nm url key : String) (json : Bool) (r : BucketResps),
      key ≠ "" → nm ≠ "" →
      Bucket.handler ⟨BucketAction.update, some nm, none, url, key, json⟩ r =
        [Eff.mkClient url key, Eff.err "--public flag required for update", Eff.exit 1]) ∧
    (∀ (nm url key : String) (json : Bool) (r : BucketResps),
      key ≠ "" → nm ≠ "" → r.createBucket.error = none →
      Bucket.handler ⟨BucketAction.create, some nm, none, url, key, json⟩ r =
        [Eff.mkClient url key, Eff.call (ClientOp.createBucket nm false),
         Eff.success ("Bucket created: " ++ nm)] ++
        (if json then [Eff.out (jsonStringify r.createBucket.data)] else [])) := by
  constructor
  · intro nm url key json r hk hn
    simp [Bucket.handler, Bucket.updateBucket, jsTruthy, hk, hn]
  · intro nm url key json r hk hn hr
    simp [Bucket.handler, Bucket.createBucket, jsTruthy, hk, hn, hr]

/-- Witness for C3 at a concrete invocation: updating bucket "photos"
without the flag errors out; creating it without the flag issues one
`createBucket` call with visibility `false`. -/
theorem c3_witness :
    Bucket.handler ⟨BucketAction.update, some "photos", none, "u", "k", false⟩
        (bucketRespsWith none) =
      [Eff.mkClient "u" "k", Eff.err "--public flag required for update", Eff.exit 1] ∧
    Bucket.handler ⟨BucketAction.create, some "photos", none, "u", "k", false⟩
        (bucketRespsWith none) =
      [Eff.mkClient "u" "k", Eff.call (ClientOp.createBucket "photos" false),
       Eff.success ("Bucket created: " ++ "photos")] ++
      (if false then [Eff.out (jsonStringify (bucketRespsWith none).createBucket.data)] else []) := by
  exact ⟨c3_bucket_visibility_flag.1 "photos" "u" "k" false (bucketRespsWith none)
          (by decide) (by decide),
         c3_bucket_visibility_flag.2 "photos" "u" "k" false (bucketRespsWith none)
          (by decide) (by decide) rfl⟩

/-- C5: when the resolved credential (`--key`, falling back to
`STORAGE_SERVICE_KEY`, falling back to the empty string) is empty,
each of the three handlers prints the guidance message and exits with
status 1 without constructing a storage client and without any
network-performing client operation. -/
theorem c5_missing_credential_fails_fast :
    (∀ (flag envKey : Option String) (a : BucketArgs) (r : BucketResps),
      resolveKey flag envKey = "" →
      Bucket.handler { a with key := resolveKey flag envKey } r =
        [Eff.err "Storage key not set",
         Eff.info "Set STORAGE_SERVICE_KEY or use --key option", Eff.exit 1]) ∧
    (∀ (flag envKey : Option String) (a : FileArgs) (fsz : Nat) (r : FileResps),
      resolveKey flag envKey = "" →
      FileCmd.handler { a with key := resolveKey flag envKey } fsz r =
        [Eff.err "Storage key not set",
         Eff.info "Set STORAGE_SERVICE_KEY or use --key option", Eff.exit 1]) ∧
    (∀ (flag envKey : Option String) (a : UrlArgs) (r : UrlResps),
      resolveKey flag envKey = "" →
      Url.handler { a with key := resolveKey flag envKey } r =
        [Eff.err "Storage key not set",
         Eff.info "Set STORAGE_SERVICE_KEY or use --key option", Eff.exit 1]) ∧
    (callsOf [Eff.err "Storage key not set",
              Eff.info "Set STORAGE_SERVICE_KEY or use --key option", Eff.exit 1] = [] ∧
     ∀ u k, Eff.mkClient u k ∉
       ([Eff.err "Storage key not set",
         Eff.info "Set STORAGE_SERVICE_KEY or use --key option", Eff.exit 1] : List Eff)) := by
  refine ⟨?_, ?_, ?_, by decide, by intro u k; simp⟩
  · intro flag envKey a r h
    simp [Bucket.handler, h]
  · intro flag envKey a fsz r h
    simp [FileCmd.handler, h]
  · intro flag envKey a r h
    simp [Url.handler, h]

/-- Witness for C5: with no `--key` flag and no environment credential
the resolved key is empty and each handler stops at the guidance
message. -/
theorem c5_witness :
    resolveKey none none = "" ∧
    Bucket.handler { action := BucketAction.list, name := none, isPublic := none,
                     url := "u", key := resolveKey none none, json := false }
        (bucketRespsWith none) =
      [Eff.err "Storage key not set",
       Eff.info "Set STORAGE_SERVICE_KEY or use --key option", Eff.exit 1] ∧
    FileCmd.handler { action := FileAction.list, bucket := "b", args := none, file := none,
                      pathArg := none, output := none, fromArg := none, toArg := none,
                      pfx := none, limit := 100, search := none, upsert := false,
                      url := "u", key := resolveKey none none, json := false }
        7 (fileRespsWith none) =
      [Eff.err "Storage key not set",
       Eff.info "Set STORAGE_SERVICE_KEY or use --key option", Eff.exit 1] ∧
    Url.handler { action := UrlAction.publicUrl, bucket := "b", pathArg := some "a.txt",
                  args := none, expires := 3600, download := none,
                  url := "u", key := resolveKey none none, json := false }
        (urlRespsWith none) =
      [Eff.err "Storage key not set",
       Eff.info "Set STORAGE_SERVICE_KEY or use --key option", Eff.exit 1] := by
  refine ⟨rfl, ?_, ?_, ?_⟩
  · exact c5_missing_credential_fails_fast.1 none none
      ⟨BucketAction.list, none, none, "u", "ignored", false⟩ (bucketRespsWith none) rfl
  · exact c5_missing_credential_fails_fast.2.1 none none
      ⟨FileAction.list, "b", none, none, none, none, none, none, none, 100, none, false,
       "u", "ignored", false⟩ 7 (fileRespsWith none) rfl
  · exact c5_missing_credential_fails_fast.2.2.1 none none
      ⟨UrlAction.publicUrl, "b", some "a.txt", none, 3600, none, "u", "ignored", false⟩
      (urlRespsWith none) rfl

/-- C7: `file delete <bucket> p1 .. pn` performs exactly one `remove`
client call whose argument is the path list in command-line order
(whatever the mocked response), and on success reports a deleted count
equal to the number of entries the client returned, which the
statement leaves independent of `n`. -/
theorem c7_delete_single_remove_call :
    (∀ (b url key p : String) (rest : List String) (limitN fsz : Nat) (upsert json : Bool)
        (r : FileResps),
      key ≠ "" → b ≠ "" →
      callsOf (FileCmd.handler
          ⟨FileAction.delete, b, some (p :: rest), none, none, none, none, none, none,
           limitN, none, upsert, url, key, json⟩ fsz r) =
        [Eff.call (ClientOp.remove b (p :: rest))]) ∧
    (∀ (b url key p : String) (rest : List String) (limitN fsz : Nat) (upsert json : Bool)
        (r : FileResps),
      key ≠ "" → b ≠ "" → r.remove.error = none →
      FileCmd.handler
          ⟨FileAction.delete, b, some (p :: rest), none, none, none, none, none, none,
           limitN, none, upsert, url, key, json⟩ fsz r =
        [Eff.mkClient url key,
         Eff.info ("Deleting " ++ toString (p :: rest).length ++ " file(s)..."),
         Eff.call (ClientOp.remove b (p :: rest)),
         Eff.success ("Deleted " ++ toString r.remove.data.length ++ " file(s)")] ++
        (if json then [Eff.out (jsonStringify (Jx.arr (r.remove.data.map FileCmd.jxOfEntry)))]
         else r.remove.data.flatMap fun f => [Eff.out ("  ✓ " ++ f.name)])) := by
  constructor
  · intro b url key p rest limitN fsz upsert json r hk hb
    rcases he : r.remove.error with _ | e <;>
      simp [FileCmd.handler, FileCmd.dispatch, FileCmd.deleteFiles, hk, hb, he]
  · intro b url key p rest limitN fsz upsert json r hk hb he
    simp [FileCmd.handler, FileCmd.dispatch, FileCmd.deleteFiles, hk, hb, he]

/-- Witness for C7: deleting two paths issues one `remove(["a.txt",
"b.txt"])` call, and the success report counts the single entry the
mocked client returned. -/
theorem c7_witness :
    callsOf (FileCmd.handler
        ⟨FileAction.delete, "b", some ["a.txt", "b.txt"], none, none, none, none, none, none,
         100, none, false, "u", "k", false⟩ 7 (fileRespsWith none)) =
      [Eff.call (ClientOp.remove "b" ["a.txt", "b.txt"])] ∧
    FileCmd.handler
        ⟨FileAction.delete, "b", some ["a.txt", "b.txt"], none, none, none, none, none, none,
         100, none, false, "u", "k", false⟩ 7 (fileRespsWith none) =
      [Eff.mkClient "u" "k", Eff.info "Deleting 2 file(s)...",
       Eff.call (ClientOp.remove "b" ["a.txt", "b.txt"]),
       Eff.success "Deleted 1 file(s)", Eff.out "  ✓ a.txt"] := by
  constructor
  · exact c7_delete_single_remove_call.1 "b" "u" "k" "a.txt" ["b.txt"] 100 7 false false
      (fileRespsWith none) (by decide) (by decide)
  · exact (c7_delete_single_remove_call.2 "b" "u" "k" "a.txt" ["b.txt"] 100 7 false false
      (fileRespsWith none) (by decide) (by decide) rfl).trans (by decide)

/-- C6: `url signed-urls` over the path list `p :: rest` (the optional
positional followed by the catch-all positionals) issues exactly one
`createSignedUrls` call carrying all paths and the expiry, whatever
the mocked response; in text mode the success trace is one marker
group per returned entry (the failure marker exactly when the entry's
`error` is truthy) followed by the `k/n URLs generated successfully`
tally, where `k` counts the returned entries without a truthy error
and `n` is the number of returned entries; the expiry flag defaults to
3600. -/
theorem c6_signed_urls_call_and_tally :
    (∀ (b url key p : String) (rest : List String) (ev : Nat) (dl : Option String)
        (json : Bool) (r : UrlResps),
      key ≠ "" → b ≠ "" → p ≠ "" →
      callsOf (Url.handler ⟨UrlAction.signedUrls, b, some p, some rest, ev, dl, url, key, json⟩ r) =
        [Eff.call (ClientOp.createSignedUrls b (p :: rest) ev dl)]) ∧
    (∀ (b url key p : String) (rest : List String) (ev : Nat) (dl : Option String)
        (r : UrlResps),
      key ≠ "" → b ≠ "" → p ≠ "" → r.signedUrls.error = none →
      Url.handler ⟨UrlAction.signedUrls, b, some p, some rest, ev, dl, url, key, false⟩ r =
        [Eff.mkClient url key,
         Eff.info ("Creating signed URLs for " ++ toString (p :: rest).length ++ " file(s)..."),
         Eff.call (ClientOp.createSignedUrls b (p :: rest) ev dl),
         Eff.out ("\n🔐 Signed URLs (expires in " ++ toString ev ++ "s):\n")] ++
        r.signedUrls.data.flatMap Url.signedItemLines ++
        [Eff.success ("\n" ++
           toString (r.signedUrls.data.filter fun it => !jsTruthy it.error).length ++ "/" ++
           toString r.signedUrls.data.length ++ " URLs generated successfully")]) ∧
    (∀ it : SignedItem,
      Url.signedItemLines it =
        if jsTruthy it.error then [Eff.out ("  ✗ " ++ it.pathArg ++ ": " ++ it.error.getD "")]
        else [Eff.out ("  ✓ " ++ it.pathArg), Eff.out ("    " ++ it.signedUrl)]) ∧
    resolveExpires none = 3600 := by
  refine ⟨?_, ?_, fun it => rfl, rfl⟩
  · intro b url key p rest ev dl json r hk hb hp
    rcases he : r.signedUrls.error with _ | e <;>
      simp [Url.handler, Url.getSignedUrls, jsTruthy, hk, hb, hp, he]
  · intro b url key p rest ev dl r hk hb hp he
    simp [Url.handler, Url.getSignedUrls, jsTruthy, hk, hb, hp, he]

/-- Witness for C6: two paths with a 7200-second expiry produce a
single `createSignedUrls(["a.txt","b.txt"], 7200)` call, and a mocked
response with one failing entry prints one marker per entry and the
"1/2 URLs generated successfully" tally. -/
theorem c6_witness :
    callsOf (Url.handler
        ⟨UrlAction.signedUrls, "b", some "a.txt", some ["b.txt"], 7200, none, "u", "k", false⟩
        { publicUrl := "http://pub", signedUrl := ⟨"s", none⟩,
          signedUpload := ⟨⟨"p", "t", "s"⟩, none⟩,
          signedUrls := ⟨[⟨"a.txt", "http://signed/a.txt", none⟩, ⟨"b.txt", "", some "denied"⟩],
                         none⟩ }) =
      [Eff.call (ClientOp.createSignedUrls "b" ["a.txt", "b.txt"] 7200 none)] ∧
    Url.handler
        ⟨UrlAction.signedUrls, "b", some "a.txt", some ["b.txt"], 7200, none, "u", "k", false⟩
        { publicUrl := "http://pub", signedUrl := ⟨"s", none⟩,
          signedUpload := ⟨⟨"p", "t", "s"⟩, none⟩,
          signedUrls := ⟨[⟨"a.txt", "http://signed/a.txt", none⟩, ⟨"b.txt", "", some "denied"⟩],
                         none⟩ } =
      [Eff.mkClient "u" "k",
       Eff.info "Creating signed URLs for 2 file(s)...",
       Eff.call (ClientOp.createSignedUrls "b" ["a.txt", "b.txt"] 7200 none),
       Eff.out "\n🔐 Signed URLs (expires in 7200s):\n",
       Eff.out "  ✓ a.txt",
       Eff.out "    http://signed/a.txt",
       Eff.out "  ✗ b.txt: denied",
       Eff.success "\n1/2 URLs generated successfully"] := by
  constructor
  · exact c6_signed_urls_call_and_tally.1 "b" "u" "k" "a.txt" ["b.txt"] 7200 none false _
      (by decide) (by decide) (by decide)
  · exact (c6_signed_urls_call_and_tally.2.1 "b" "u" "k" "a.txt" ["b.txt"] 7200 none _
      (by decide) (by decide) (by decide) rfl).trans (by decide)

/-- C10: for the `download`, `info` and `exists` actions of the file
group the remote path may come from the `--path` flag or from the
first extra positional; when a nonempty flag and a positional are both
supplied the flag wins and the positional is ignored, and when the
flag is absent the first positional is used — witnessed by the single
client call each invocation performs. -/
theorem c10_path_flag_precedence :
    (∀ (b url key s q : String) (qs : List String) (output : Option String) (limitN fsz : Nat)
        (upsert json : Bool) (r : FileResps),
      key ≠ "" → b ≠ "" → s ≠ "" →
      callsOf (FileCmd.handler
          ⟨FileAction.download, b, some (q :: qs), none, some s, output, none, none, none,
           limitN, none, upsert, url, key, json⟩ fsz r) =
        [Eff.call (ClientOp.download b s)]) ∧
    (∀ (b url key q : String) (qs : List String) (output : Option String) (limitN fsz : Nat)
        (upsert json : Bool) (r : FileResps),
      key ≠ "" → b ≠ "" → q ≠ "" →
      callsOf (FileCmd.handler
          ⟨FileAction.download, b, some (q :: qs), none, none, output, none, none, none,
           limitN, none, upsert, url, key, json⟩ fsz r) =
        [Eff.call (ClientOp.download b q)]) ∧
    (∀ (b url key s q : String) (qs : List String) (limitN fsz : Nat) (upsert json : Bool)
        (r : FileResps),
      key ≠ "" → b ≠ "" → s ≠ "" →
      callsOf (FileCmd.handler
          ⟨FileAction.info, b, some (q :: qs), none, some s, none, none, none, none,
           limitN, none, upsert, url, key, json⟩ fsz r) =
        [Eff.call (ClientOp.infoObj b s)]) ∧
    (∀ (b url key q : String) (qs : List String) (limitN fsz : Nat) (upsert json : Bool)
        (r : FileResps),
      key ≠ "" → b ≠ "" → q ≠ "" →
      callsOf (FileCmd.handler
          ⟨FileAction.info, b, some (q :: qs), none, none, none, none, none, none,
           limitN, none, upsert, url, key, json⟩ fsz r) =
        [Eff.call (ClientOp.infoObj b q)]) ∧
    (∀ (b url key s q : String) (qs : List String) (limitN fsz : Nat) (upsert json : Bool)
        (r : FileResps),
      key ≠ "" → b ≠ "" → s ≠ "" →
      callsOf (FileCmd.handler
          ⟨FileAction.exists, b, some (q :: qs), none, some s, none, none, none, none,
           limitN, none, upsert, url, key, json⟩ fsz r) =
        [Eff.call (ClientOp.existsObj b s)]) ∧
    (∀ (b url key q : String) (qs : List String) (limitN fsz : Nat) (upsert json : Bool)
        (r : FileResps),
      key ≠ "" → b ≠ "" → q ≠ "" →
      callsOf (FileCmd.handler
          ⟨FileAction.exists, b, some (q :: qs), none, none, none, none, none, none,
           limitN, none, upsert, url, key, json⟩ fsz r) =
        [Eff.call (ClientOp.existsObj b q)]) := by
  refine ⟨?_, ?_, ?_, ?_, ?_, ?_⟩
  · intro b url key s q qs output limitN fsz upsert json r hk hb hs
    rcases he : r.download.error with _ | e <;>
      simp [FileCmd.handler, FileCmd.dispatch, FileCmd.downloadFile, actualPathOf, jsTruthy,
            hk, hb, hs, he]
  · intro b url key q qs output limitN fsz upsert json r hk hb hq
    rcases he : r.download.error with _ | e <;>
      simp [FileCmd.handler, FileCmd.dispatch, FileCmd.downloadFile, actualPathOf, jsTruthy,
            hk, hb, hq, he]
  · intro b url key s q qs limitN fsz upsert json r hk hb hs
    rcases he : r.infoObj.error with _ | e <;>
      rcases hm : r.infoObj.data.metadata with _ | m <;>
      simp [FileCmd.handler, FileCmd.dispatch, FileCmd.getFileInfo, actualPathOf, jsTruthy,
            hk, hb, hs, he, hm]
  · intro b url key q qs limitN fsz upsert json r hk hb hq
    rcases he : r.infoObj.error with _ | e <;>
      rcases hm : r.infoObj.data.metadata with _ | m <;>
      simp [FileCmd.handler, FileCmd.dispatch, FileCmd.getFileInfo, actualPathOf, jsTruthy,
            hk, hb, hq, he, hm]
  · intro b url key s q qs limitN fsz upsert json r hk hb hs
    simp [FileCmd.handler, FileCmd.dispatch, FileCmd.checkFileExists, actualPathOf, jsTruthy,
          hk, hb, hs]
  · intro b url key q qs limitN fsz upsert json r hk hb hq
    simp [FileCmd.handler, FileCmd.dispatch, FileCmd.checkFileExists, actualPathOf, jsTruthy,
          hk, hb, hq]

/-- Witness for C10: with `--path flag.txt` and positional `pos.txt`
the download call targets `flag.txt`; without the flag it targets
`pos.txt`. -/
theorem c10_witness :
    callsOf (FileCmd.handler
        ⟨FileAction.download, "b", some ["pos.txt"], none, some "flag.txt", none, none, none,
         none, 100, none, false, "u", "k", false⟩ 7 (fileRespsWith none)) =
      [Eff.call (ClientOp.download "b" "flag.txt")] ∧
    callsOf (FileCmd.handler
        ⟨FileAction.download, "b", some ["pos.txt"], none, none, none, none, none,
         none, 100, none, false, "u", "k", false⟩ 7 (fileRespsWith none)) =
      [Eff.call (ClientOp.download "b" "pos.txt")] := by
  constructor
  · exact c10_path_flag_precedence.1 "b" "u" "k" "flag.txt" "pos.txt" [] none 100 7 false false
      (fileRespsWith none) (by decide) (by decide) (by decide)
  · exact c10_path_flag_precedence.2.1 "b" "u" "k" "pos.txt" [] none 100 7 false false
      (fileRespsWith none) (by decide) (by decide) (by decide)

/-- Counterexample to C2: `file update` with `--file dir/a.txt` and no
`--path` does not default the destination to the base name — it
prints "Remote path required (use --path to specify destination)" to
the error channel and exits with status 1 without any client call. -/
theorem c2_counterexample :
    FileCmd.handler
        ⟨FileAction.update, "b", none, some "dir/a.txt", none, none, none, none, none,
         100, none, false, "u", "k", false⟩ 5 (fileRespsWith none) =
      [Eff.mkClient "u" "k",
       Eff.err "Remote path required (use --path to specify destination)", Eff.exit 1] ∧
    callsOf (FileCmd.handler
        ⟨FileAction.update, "b", none, some "dir/a.txt", none, none, none, none, none,
         100, none, false, "u", "k", false⟩ 5 (fileRespsWith none)) = [] := by
  decide

/-- C2 (amended): both `file upload` and `file update` require
`--file` (its absence is an error); for `upload` an omitted `--path`
defaults the destination to the base name of the local source file,
while for `update` an omitted `--path` is an error rather than a
default. -/
theorem c2_upload_update_source_destination :
    (∀ (b url key : String) (rp output : Option String) (limitN fsz : Nat) (upsert json : Bool)
        (r : FileResps),
      key ≠ "" → b ≠ "" →
      FileCmd.handler
          ⟨FileAction.upload, b, none, none, rp, output, none, none, none,
           limitN, none, upsert, url, key, json⟩ fsz r =
        [Eff.mkClient url key, Eff.err "File path required (use --file)", Eff.exit 1]) ∧
    (∀ (b url key : String) (rp output : Option String) (limitN fsz : Nat) (upsert json : Bool)
        (r : FileResps),
      key ≠ "" → b ≠ "" →
      FileCmd.handler
          ⟨FileAction.update, b, none, none, rp, output, none, none, none,
           limitN, none, upsert, url, key, json⟩ fsz r =
        [Eff.mkClient url key, Eff.err "File path required (use --file)", Eff.exit 1]) ∧
    (∀ (b url key f : String) (limitN fsz : Nat) (upsert json : Bool) (r : FileResps),
      key ≠ "" → b ≠ "" → f ≠ "" →
      callsOf (FileCmd.handler
          ⟨FileAction.upload, b, none, some f, none, none, none, none, none,
           limitN, none, upsert, url, key, json⟩ fsz r) =
        [Eff.call (ClientOp.upload b (basenameString f) upsert (getContentType f))]) ∧
    (∀ (b url key f : String) (limitN fsz : Nat) (upsert json : Bool) (r : FileResps),
      key ≠ "" → b ≠ "" → f ≠ "" →
      FileCmd.handler
          ⟨FileAction.update, b, none, some f, none, none, none, none, none,
           limitN, none, upsert, url, key, json⟩ fsz r =
        [Eff.mkClient url key,
         Eff.err "Remote path required (use --path to specify destination)", Eff.exit 1]) := by
  refine ⟨?_, ?_, ?_, ?_⟩
  · intro b url key rp output limitN fsz upsert json r hk hb
    simp [FileCmd.handler, FileCmd.dispatch, jsTruthy, hk, hb]
  · intro b url key rp output limitN fsz upsert json r hk hb
    simp [FileCmd.handler, FileCmd.dispatch, jsTruthy, hk, hb]
  · intro b url key f limitN fsz upsert json r hk hb hf
    rcases he : r.upload.error with _ | e <;>
      simp [FileCmd.handler, FileCmd.dispatch, FileCmd.uploadFile, jsOrS, jsTruthy,
            hk, hb, hf, he]
  · intro b url key f limitN fsz upsert json r hk hb hf
    simp [FileCmd.handler, FileCmd.dispatch, jsTruthy, hk, hb, hf]

/-- Witness for C2 (amended): uploading `dir/a.txt` with no `--path`
issues one upload call whose destination is the base name `a.txt`;
updating with the same arguments errors out; omitting `--file` errors
out for both actions. -/
theorem c2_witness :
    FileCmd.handler
        ⟨FileAction.upload, "b", none, none, none, none, none, none, none,
         100, none, false, "u", "k", false⟩ 5 (fileRespsWith none) =
      [Eff.mkClient "u" "k", Eff.err "File path required (use --file)", Eff.exit 1] ∧
    FileCmd.handler
        ⟨FileAction.update, "b", none, none, none, none, none, none, none,
         100, none, false, "u", "k", false⟩ 5 (fileRespsWith none) =
      [Eff.mkClient "u" "k", Eff.err "File path required (use --file)", Eff.exit 1] ∧
    callsOf (FileCmd.handler
        ⟨FileAction.upload, "b", none, some "dir/a.txt", none, none, none, none, none,
         100, none, false, "u", "k", false⟩ 5 (fileRespsWith none)) =
      [Eff.call (ClientOp.upload "b" "a.txt" false "text/plain")] ∧
    FileCmd.handler
        ⟨FileAction.update, "b", none, some "dir/a.txt", none, none, none, none, none,
         100, none, false, "u", "k", false⟩ 5 (fileRespsWith none) =
      [Eff.mkClient "u" "k",
       Eff.err "Remote path required (use --path to specify destination)", Eff.exit 1] := by
  refine ⟨?_, ?_, ?_, ?_⟩
  · exact c2_upload_update_source_destination.1 "b" "u" "k" none none 100 5 false false
      (fileRespsWith none) (by decide) (by decide)
  · exact c2_upload_update_source_destination.2.1 "b" "u" "k" none none 100 5 false false
      (fileRespsWith none) (by decide) (by decide)
  · exact (c2_upload_update_source_destination.2.2.1 "b" "u" "k" "dir/a.txt" 100 5 false false
      (fileRespsWith none) (by decide) (by decide) (by decide)).trans (by decide)
  · exact c2_upload_update_source_destination.2.2.2 "b" "u" "k" "dir/a.txt" 100 5 false false
      (fileRespsWith none) (by decide) (by decide) (by decide)

/-- C4: with the credential present but a required argument missing,
every action of every group prints an error message naming the missing
argument and exits with status 1, and the resulting trace contains no
network-performing client operation (only the client construction
precedes the exit): the bucket actions without a name, `upload`/
`update` without `--file`, `move`/`copy` without `--from` or `--to`,
`delete` and `signed-urls` without any path, and `download`/`info`/
`exists`/`public`/`signed`/`signed-upload` without a path. -/
theorem c4_missing_required_argument :
    (∀ (url key : String) (isPub : Option Bool) (json : Bool) (r : BucketResps), key ≠ "" →
      Bucket.handler ⟨BucketAction.create, none, isPub, url, key, json⟩ r =
        [Eff.mkClient url key, Eff.err "Bucket name required", Eff.exit 1]) ∧
    (∀ (url key : String) (isPub : Option Bool) (json : Bool) (r : BucketResps), key ≠ "" →
      Bucket.handler ⟨BucketAction.get, none, isPub, url, key, json⟩ r =
        [Eff.mkClient url key, Eff.err "Bucket name required", Eff.exit 1]) ∧
    (∀ (url key : String) (isPub : Option Bool) (json : Bool) (r : BucketResps), key ≠ "" →
      Bucket.handler ⟨BucketAction.update, none, isPub, url, key, json⟩ r =
        [Eff.mkClient url key, Eff.err "Bucket name required", Eff.exit 1]) ∧
    (∀ (url key : String) (isPub : Option Bool) (json : Bool) (r : BucketResps), key ≠ "" →
      Bucket.handler ⟨BucketAction.empty, none, isPub, url, key, json⟩ r =
        [Eff.mkClient url key, Eff.err "Bucket name required", Eff.exit 1]) ∧
    (∀ (url key : String) (isPub : Option Bool) (json : Bool) (r : BucketResps), key ≠ "" →
      Bucket.handler ⟨BucketAction.delete, none, isPub, url, key, json⟩ r =
        [Eff.mkClient url key, Eff.err "Bucket name required", Eff.exit 1]) ∧
    (∀ (b url key : String) (rp : Option String) (limitN fsz : Nat) (upsert json : Bool)
        (r : FileResps), key ≠ "" → b ≠ "" →
      FileCmd.handler ⟨FileAction.upload, b, none, none, rp, none, none, none, none,
          limitN, none, upsert, url, key, json⟩ fsz r =
        [Eff.mkClient url key, Eff.err "File path required (use --file)", Eff.exit 1]) ∧
    (∀ (b url key : String) (rp : Option String) (limitN fsz : Nat) (upsert json : Bool)
        (r : FileResps), key ≠ "" → b ≠ "" →
      FileCmd.handler ⟨FileAction.update, b, none, none, rp, none, none, none, none,
          limitN, none, upsert, url, key, json⟩ fsz r =
        [Eff.mkClient url key, Eff.err "File path required (use --file)", Eff.exit 1]) ∧
    (∀ (b url key : String) (toA : Option String) (limitN fsz : Nat) (upsert json : Bool)
        (r : FileResps), key ≠ "" → b ≠ "" →
      FileCmd.handler ⟨FileAction.move, b, none, none, none, none, none, toA, none,
          limitN, none, upsert, url, key, json⟩ fsz r =
        [Eff.mkClient url key, Eff.err "Both --from and --to required", Eff.exit 1]) ∧
    (∀ (b url key : String) (fromA : Option String) (limitN fsz : Nat) (upsert json : Bool)
        (r : FileResps), key ≠ "" → b ≠ "" →
      FileCmd.handler ⟨FileAction.copy, b, none, none, none, none, fromA, none, none,
          limitN, none, upsert, url, key, json⟩ fsz r =
        [Eff.mkClient url key, Eff.err "Both --from and --to required", Eff.exit 1]) ∧
    (∀ (b url key : String) (limitN fsz : Nat) (upsert json : Bool) (r : FileResps),
      key ≠ "" → b ≠ "" →
      FileCmd.handler ⟨FileAction.delete, b, none, none, none, none, none, none, none,
          limitN, none, upsert, url, key, json⟩ fsz r =
        [Eff.mkClient url key, Eff.err "At least one path required", Eff.exit 1]) ∧
    (∀ (b url key : String) (limitN fsz : Nat) (upsert json : Bool) (r : FileResps),
      key ≠ "" → b ≠ "" →
      FileCmd.handler ⟨FileAction.download, b, none, none, none, none, none, none, none,
          limitN, none, upsert, url, key, json⟩ fsz r =
        [Eff.mkClient url key,
         Eff.err "Remote path required (use --path or provide as argument)", Eff.exit 1]) ∧
    (∀ (b url key : String) (limitN fsz : Nat) (upsert json : Bool) (r : FileResps),
      key ≠ "" → b ≠ "" →
      FileCmd.handler ⟨FileAction.info, b, none, none, none, none, none, none, none,
          limitN, none, upsert, url, key, json⟩ fsz r =
        [Eff.mkClient url key,
         Eff.err "File path required (use --path or provide as argument)", Eff.exit 1]) ∧
    (∀ (b url key : String) (limitN fsz : Nat) (upsert json : Bool) (r : FileResps),
      key ≠ "" → b ≠ "" →
      FileCmd.handler ⟨FileAction.exists, b, none, none, none, none, none, none, none,
          limitN, none, upsert, url, key, json⟩ fsz r =
        [Eff.mkClient url key,
         Eff.err "File path required (use --path or provide as argument)", Eff.exit 1]) ∧
    (∀ (b url key : String) (aargs : Option (List String)) (ev : Nat) (dl : Option String)
        (json : Bool) (r : UrlResps), key ≠ "" → b ≠ "" →
      Url.handler ⟨UrlAction.publicUrl, b, none, aargs, ev, dl, url, key, json⟩ r =
        [Eff.mkClient url key, Eff.err "Path required for public URL", Eff.exit 1]) ∧
    (∀ (b url key : String) (aargs : Option (List String)) (ev : Nat) (dl : Option String)
        (json : Bool) (r : UrlResps), key ≠ "" → b ≠ "" →
      Url.handler ⟨UrlAction.signed, b, none, aargs, ev, dl, url, key, json⟩ r =
        [Eff.mkClient url key, Eff.err "Path required for signed URL", Eff.exit 1]) ∧
    (∀ (b url key : String) (aargs : Option (List String)) (ev : Nat) (dl : Option String)
        (json : Bool) (r : UrlResps), key ≠ "" → b ≠ "" →
      Url.handler ⟨UrlAction.signedUpload, b, none, aargs, ev, dl, url, key, json⟩ r =
        [Eff.mkClient url key, Eff.err "Path required for signed upload URL", Eff.exit 1]) ∧
    (∀ (b url key : String) (ev : Nat) (dl : Option String) (json : Bool) (r : UrlResps),
      key ≠ "" → b ≠ "" →
      Url.handler ⟨UrlAction.signedUrls, b, none, none, ev, dl, url, key, json⟩ r =
        [Eff.mkClient url key, Eff.err "At least one path required for signed URLs",
         Eff.exit 1]) ∧
    (∀ (url key msg : String),
      callsOf [Eff.mkClient url key, Eff.err msg, Eff.exit 1] = []) := by
  refine ⟨?_, ?_, ?_, ?_, ?_, ?_, ?_, ?_, ?_, ?_, ?_, ?_, ?_, ?_, ?_, ?_, ?_,
          fun url key msg => rfl⟩
  · intro url key isPub json r hk
    simp [Bucket.handler, jsTruthy, hk]
  · intro url key isPub json r hk
    simp [Bucket.handler, jsTruthy, hk]
  · intro url key isPub json r hk
    simp [Bucket.handler, jsTruthy, hk]
  · intro url key isPub json r hk
    simp [Bucket.handler, jsTruthy, hk]
  · intro url key isPub json r hk
    simp [Bucket.handler, jsTruthy, hk]
  · intro b url key rp limitN fsz upsert json r hk hb
    simp [FileCmd.handler, FileCmd.dispatch, jsTruthy, hk, hb]
  · intro b url key rp limitN fsz upsert json r hk hb
    simp [FileCmd.handler, FileCmd.dispatch, jsTruthy, hk, hb]
  · intro b url key toA limitN fsz upsert json r hk hb
    simp [FileCmd.handler, FileCmd.dispatch, jsTruthy, hk, hb]
  · intro b url key fromA limitN fsz upsert json r hk hb
    simp [FileCmd.handler, FileCmd.dispatch, jsTruthy, hk, hb]
  · intro b url key limitN fsz upsert json r hk hb
    simp [FileCmd.handler, FileCmd.dispatch, jsTruthy, hk, hb]
  · intro b url key limitN fsz upsert json r hk hb
    simp [FileCmd.handler, FileCmd.dispatch, actualPathOf, jsTruthy, hk, hb]
  · intro b url key limitN fsz upsert json r hk hb
    simp [FileCmd.handler, FileCmd.dispatch, actualPathOf, jsTruthy, hk, hb]
  · intro b url key limitN fsz upsert json r hk hb
    simp [FileCmd.handler, FileCmd.dispatch, actualPathOf, jsTruthy, hk, hb]
  · intro b url key aargs ev dl json r hk hb
    simp [Url.handler, jsTruthy, hk, hb]
  · intro b url key aargs ev dl json r hk hb
    simp [Url.handler, jsTruthy, hk, hb]
  · intro b url key aargs ev dl json r hk hb
    simp [Url.handler, jsTruthy, hk, hb]
  · intro b url key ev dl json r hk hb
    simp [Url.handler, jsTruthy, hk, hb]

/-- Witness for C4: a concrete invocation of each kind of
missing-argument failure (bucket name, `--file`, `--from`/`--to`,
delete paths, remote path, url path, signed-urls paths), each
producing only the error message and exit-1 after client
construction. -/
theorem c4_witness :
    Bucket.handler ⟨BucketAction.create, none, none, "u", "k", false⟩ (bucketRespsWith none) =
      [Eff.mkClient "u" "k", Eff.err "Bucket name required", Eff.exit 1] ∧
    FileCmd.handler ⟨FileAction.upload, "b", none, none, none, none, none, none, none,
        100, none, false, "u", "k", false⟩ 5 (fileRespsWith none) =
      [Eff.mkClient "u" "k", Eff.err "File path required (use --file)", Eff.exit 1] ∧
    FileCmd.handler ⟨FileAction.move, "b", none, none, none, none, none, some "t.txt", none,
        100, none, false, "u", "k", false⟩ 5 (fileRespsWith none) =
      [Eff.mkClient "u" "k", Eff.err "Both --from and --to required", Eff.exit 1] ∧
    FileCmd.handler ⟨FileAction.delete, "b", none, none, none, none, none, none, none,
        100, none, false, "u", "k", false⟩ 5 (fileRespsWith none) =
      [Eff.mkClient "u" "k", Eff.err "At least one path required", Eff.exit 1] ∧
    FileCmd.handler ⟨FileAction.download, "b", none, none, none, none, none, none, none,
        100, none, false, "u", "k", false⟩ 5 (fileRespsWith none) =
      [Eff.mkClient "u" "k",
       Eff.err "Remote path required (use --path or provide as argument)", Eff.exit 1] ∧
    Url.handler ⟨UrlAction.publicUrl, "b", none, none, 3600, none, "u", "k", false⟩
        (urlRespsWith none) =
      [Eff.mkClient "u" "k", Eff.err "Path required for public URL", Eff.exit 1] ∧
    Url.handler ⟨UrlAction.signedUrls, "b", none, none, 3600, none, "u", "k", false⟩
        (urlRespsWith none) =
      [Eff.mkClient "u" "k", Eff.err "At least one path required for signed URLs",
       Eff.exit 1] := by
  refine ⟨?_, ?_, ?_, ?_, ?_, ?_, ?_⟩
  · exact c4_missing_required_argument.1 "u" "k" none false (bucketRespsWith none) (by decide)
  · exact c4_missing_required_argument.2.2.2.2.2.1 "b" "u" "k" none 100 5 false false
      (fileRespsWith none) (by decide) (by decide)
  · exact c4_missing_required_argument.2.2.2.2.2.2.2.1 "b" "u" "k" (some "t.txt") 100 5
      false false (fileRespsWith none) (by decide) (by decide)
  · exact c4_missing_required_argument.2.2.2.2.2.2.2.2.2.1 "b" "u" "k" 100 5 false false
      (fileRespsWith none) (by decide) (by decide)
  · exact c4_missing_required_argument.2.2.2.2.2.2.2.2.2.2.1 "b" "u" "k" 100 5 false false
      (fileRespsWith none) (by decide) (by decide)
  · exact c4_missing_required_argument.2.2.2.2.2.2.2.2.2.2.2.2.2.1 "b" "u" "k" none 3600 none
      false (urlRespsWith none) (by decide) (by decide)
  · exact c4_missing_required_argument.2.2.2.2.2.2.2.2.2.2.2.2.2.2.2.2.1 "b" "u" "k" 3600 none
      false (urlRespsWith none) (by decide) (by decide)

/-- Counterexample to C1: when `client.exists` returns an error
("boom"), the `file exists` handler neither prints anything to the
error channel nor exits with status 1 — in text mode it reports the
file as not existing and the run ends normally. -/
theorem c1_counterexample :
    FileCmd.handler
        ⟨FileAction.exists, "b", none, none, some "a.txt", none, none, none, none,
         100, none, false, "u", "k", false⟩ 5 (fileRespsWith (some "boom")) =
      [Eff.mkClient "u" "k", Eff.call (ClientOp.existsObj "b" "a.txt"),
       Eff.info "File does not exist: a.txt"] ∧
    (Eff.exit 1) ∉ FileCmd.handler
        ⟨FileAction.exists, "b", none, none, some "a.txt", none, none, none, none,
         100, none, false, "u", "k", false⟩ 5 (fileRespsWith (some "boom")) ∧
    ∀ m, (Eff.err m) ∉ FileCmd.handler
        ⟨FileAction.exists, "b", none, none, some "a.txt", none, none, none, none,
         100, none, false, "u", "k", false⟩ 5 (fileRespsWith (some "boom")) := by
  refine ⟨by decide, by decide, ?_⟩
  intro m
  have h : FileCmd.handler
      ⟨FileAction.exists, "b", none, none, some "a.txt", none, none, none, none,
       100, none, false, "u", "k", false⟩ 5 (fileRespsWith (some "boom")) =
      [Eff.mkClient "u" "k", Eff.call (ClientOp.existsObj "b" "a.txt"),
       Eff.info "File does not exist: a.txt"] := by decide
  rw [h]
  simp

/-- C1 (amended): for every action of the bucket, file and url groups
whose handler performs a fallible client call — that is, every action
except `file exists` (and `url public`, whose call has no error) —
an error returned by the call is printed to the error channel and the
process exits with status 1, regardless of the `--json` flag; for
`file exists` an error from `client.exists` is not propagated: the
handler prints the JSON object embedding the message or the
text-mode non-existence line, and neither writes to the error channel
nor exits. -/
theorem c1_errors_propagate_except_exists :
    (∀ (url key e : String) (nm : Option String) (isPub : Option Bool) (json : Bool)
        (r : BucketResps), key ≠ "" → r.listBuckets.error = some e →
      Bucket.handler ⟨BucketAction.list, nm, isPub, url, key, json⟩ r =
        [Eff.mkClient url key, Eff.call ClientOp.listBuckets, Eff.err e, Eff.exit 1]) ∧
    (∀ (nm url key e : String) (isPub : Option Bool) (json : Bool) (r : BucketResps),
      key ≠ "" → nm ≠ "" → r.createBucket.error = some e →
      Bucket.handler ⟨BucketAction.create, some nm, isPub, url, key, json⟩ r =
        [Eff.mkClient url key, Eff.call (ClientOp.createBucket nm (isPub.getD false)),
         Eff.err e, Eff.exit 1]) ∧
    (∀ (nm url key e : String) (json : Bool) (r : BucketResps),
      key ≠ "" → nm ≠ "" → r.getBucket.error = some e →
      Bucket.handler ⟨BucketAction.get, some nm, none, url, key, json⟩ r =
        [Eff.mkClient url key, Eff.call (ClientOp.getBucket nm), Eff.err e, Eff.exit 1]) ∧
    (∀ (nm url key e : String) (pub json : Bool) (r : BucketResps),
      key ≠ "" → nm ≠ "" → r.updateBucket.error = some e →
      Bucket.handler ⟨BucketAction.update, some nm, some pub, url, key, json⟩ r =
        [Eff.mkClient url key, Eff.call (ClientOp.updateBucket nm pub), Eff.err e, Eff.exit 1]) ∧
    (∀ (nm url key e : String) (json : Bool) (r : BucketResps),
      key ≠ "" → nm ≠ "" → r.emptyBucket.error = some e →
      Bucket.handler ⟨BucketAction.empty, some nm, none, url, key, json⟩ r =
        [Eff.mkClient url key, Eff.call (ClientOp.emptyBucket nm), Eff.err e, Eff.exit 1]) ∧
    (∀ (nm url key e : String) (json : Bool) (r : BucketResps),
      key ≠ "" → nm ≠ "" → r.deleteBucket.error = some e →
      Bucket.handler ⟨BucketAction.delete, some nm, none, url, key, json⟩ r =
        [Eff.mkClient url key, Eff.call (ClientOp.deleteBucket nm), Eff.err e, Eff.exit 1]) ∧
    (∀ (b url key f e : String) (rp : Option String) (limitN fsz : Nat) (upsert json : Bool)
        (r : FileResps), key ≠ "" → b ≠ "" → f ≠ "" → r.upload.error = some e →
      FileCmd.handler ⟨FileAction.upload, b, none, some f, rp, none, none, none, none,
          limitN, none, upsert, url, key, json⟩ fsz r =
        [Eff.mkClient url key, Eff.fsRead f,
         Eff.info ("Uploading " ++ formatBytes fsz ++ "..."),
         Eff.call (ClientOp.upload b (jsOrS rp (basenameString f)) upsert (getContentType f)),
         Eff.err e, Eff.exit 1]) ∧
    (∀ (b url key s e : String) (output : Option String) (limitN fsz : Nat) (upsert json : Bool)
        (r : FileResps), key ≠ "" → b ≠ "" → s ≠ "" → r.download.error = some e →
      FileCmd.handler ⟨FileAction.download, b, none, none, some s, output, none, none, none,
          limitN, none, upsert, url, key, json⟩ fsz r =
        [Eff.mkClient url key, Eff.info "Downloading...",
         Eff.call (ClientOp.download b s), Eff.err e, Eff.exit 1]) ∧
    (∀ (b url key e : String) (pfx search : Option String) (limitN fsz : Nat)
        (upsert json : Bool) (r : FileResps),
      key ≠ "" → b ≠ "" → r.listObjects.error = some e →
      FileCmd.handler ⟨FileAction.list, b, none, none, none, none, none, none, pfx,
          limitN, search, upsert, url, key, json⟩ fsz r =
        [Eff.mkClient url key,
         Eff.call (ClientOp.listObjects b (jsOrS pfx "") limitN search), Eff.err e, Eff.exit 1]) ∧
    (∀ (b url key p e : String) (rest : List String) (limitN fsz : Nat) (upsert json : Bool)
        (r : FileResps), key ≠ "" → b ≠ "" → r.remove.error = some e →
      FileCmd.handler ⟨FileAction.delete, b, some (p :: rest), none, none, none, none, none,
          none, limitN, none, upsert, url, key, json⟩ fsz r =
        [Eff.mkClient url key,
         Eff.info ("Deleting " ++ toString (p :: rest).length ++ " file(s)..."),
         Eff.call (ClientOp.remove b (p :: rest)), Eff.err e, Eff.exit 1]) ∧
    (∀ (b url key f t e : String) (limitN fsz : Nat) (upsert json : Bool) (r : FileResps),
      key ≠ "" → b ≠ "" → f ≠ "" → t ≠ "" → r.move.error = some e →
      FileCmd.handler ⟨FileAction.move, b, none, none, none, none, some f, some t, none,
          limitN, none, upsert, url, key, json⟩ fsz r =
        [Eff.mkClient url key, Eff.call (ClientOp.move b f t), Eff.err e, Eff.exit 1]) ∧
    (∀ (b url key f t e : String) (limitN fsz : Nat) (upsert json : Bool) (r : FileResps),
      key ≠ "" → b ≠ "" → f ≠ "" → t ≠ "" → r.copy.error = some e →
      FileCmd.handler ⟨FileAction.copy, b, none, none, none, none, some f, some t, none,
          limitN, none, upsert, url, key, json⟩ fsz r =
        [Eff.mkClient url key, Eff.call (ClientOp.copy b f t), Eff.err e, Eff.exit 1]) ∧
    (∀ (b url key s e : String) (limitN fsz : Nat) (upsert json : Bool) (r : FileResps),
      key ≠ "" → b ≠ "" → s ≠ "" → r.infoObj.error = some e →
      FileCmd.handler ⟨FileAction.info, b, none, none, some s, none, none, none, none,
          limitN, none, upsert, url, key, json⟩ fsz r =
        [Eff.mkClient url key, Eff.info "Getting file info...",
         Eff.call (ClientOp.infoObj b s), Eff.err e, Eff.exit 1]) ∧
    (∀ (b url key f rp e : String) (limitN fsz : Nat) (upsert json : Bool) (r : FileResps),
      key ≠ "" → b ≠ "" → f ≠ "" → rp ≠ "" → r.updateObj.error = some e →
      FileCmd.handler ⟨FileAction.update, b, none, some f, some rp, none, none, none, none,
          limitN, none, upsert, url, key, json⟩ fsz r =
        [Eff.mkClient url key, Eff.fsRead f,
         Eff.info ("Updating " ++ formatBytes fsz ++ "..."),
         Eff.call (ClientOp.updateObj b rp upsert (getContentType f)), Eff.err e, Eff.exit 1]) ∧
    (∀ (b url key s e : String) (ev : Nat) (dl : Option String) (json : Bool) (r : UrlResps),
      key ≠ "" → b ≠ "" → s ≠ "" → r.signedUrl.error = some e →
      Url.handler ⟨UrlAction.signed, b, some s, none, ev, dl, url, key, json⟩ r =
        [Eff.mkClient url key, Eff.call (ClientOp.createSignedUrl b s ev dl),
         Eff.err e, Eff.exit 1]) ∧
    (∀ (b url key s e : String) (ev : Nat) (dl : Option String) (json : Bool) (r : UrlResps),
      key ≠ "" → b ≠ "" → s ≠ "" → r.signedUpload.error = some e →
      Url.handler ⟨UrlAction.signedUpload, b, some s, none, ev, dl, url, key, json⟩ r =
        [Eff.mkClient url key, Eff.call (ClientOp.createSignedUploadUrl b s),
         Eff.err e, Eff.exit 1]) ∧
    (∀ (b url key p e : String) (rest : List String) (ev : Nat) (dl : Option String)
        (json : Bool) (r : UrlResps),
      key ≠ "" → b ≠ "" → p ≠ "" → r.signedUrls.error = some e →
      Url.handler ⟨UrlAction.signedUrls, b, some p, some rest, ev, dl, url, key, json⟩ r =
        [Eff.mkClient url key,
         Eff.info ("Creating signed URLs for " ++ toString (p :: rest).length ++ " file(s)..."),
         Eff.call (ClientOp.createSignedUrls b (p :: rest) ev dl), Eff.err e, Eff.exit 1]) ∧
    (∀ (b url key s e : String) (limitN fsz : Nat) (upsert json : Bool) (r : FileResps),
      key ≠ "" → b ≠ "" → s ≠ "" → r.existsObj.error = some e →
      FileCmd.handler ⟨FileAction.exists, b, none, none, some s, none, none, none, none,
          limitN, none, upsert, url, key, json⟩ fsz r =
        [Eff.mkClient url key, Eff.call (ClientOp.existsObj b s)] ++
        (if json then
          [Eff.out (jsonStringify (Jx.obj
            [("exists", Jx.bool r.existsObj.data),
             ("error", if e = "" then Jx.null else Jx.str e)]))]
         else if r.existsObj.data then [Eff.success ("File exists: " ++ s)]
         else [Eff.info ("File does not exist: " ++ s)]) ∧
      (Eff.exit 1) ∉ FileCmd.handler ⟨FileAction.exists, b, none, none, some s, none, none,
          none, none, limitN, none, upsert, url, key, json⟩ fsz r ∧
      ∀ m, (Eff.err m) ∉ FileCmd.handler ⟨FileAction.exists, b, none, none, some s, none,
          none, none, none, limitN, none, upsert, url, key, json⟩ fsz r) := by
  refine ⟨?_, ?_, ?_, ?_, ?_, ?_, ?_, ?_, ?_, ?_, ?_, ?_, ?_, ?_, ?_, ?_, ?_, ?_⟩
  · intro url key e nm isPub json r hk he
    simp [Bucket.handler, Bucket.listBuckets, hk, he]
  · intro nm url key e isPub json r hk hn he
    simp [Bucket.handler, Bucket.createBucket, jsTruthy, hk, hn, he]
  · intro nm url key e json r hk hn he
    simp [Bucket.handler, Bucket.getBucket, jsTruthy, hk, hn, he]
  · intro nm url key e pub json r hk hn he
    simp [Bucket.handler, Bucket.updateBucket, jsTruthy, hk, hn, he]
  · intro nm url key e json r hk hn he
    simp [Bucket.handler, Bucket.emptyBucket, jsTruthy, hk, hn, he]
  · intro nm url key e json r hk hn he
    simp [Bucket.handler, Bucket.deleteBucket, jsTruthy, hk, hn, he]
  · intro b url key f e rp limitN fsz upsert json r hk hb hf he
    simp [FileCmd.handler, FileCmd.dispatch, FileCmd.uploadFile, jsTruthy, hk, hb, hf, he]
  · intro b url key s e output limitN fsz upsert json r hk hb hs he
    simp [FileCmd.handler, FileCmd.dispatch, FileCmd.downloadFile, actualPathOf, jsTruthy,
          hk, hb, hs, he]
  · intro b url key e pfx search limitN fsz upsert json r hk hb he
    simp [FileCmd.handler, FileCmd.dispatch, FileCmd.listFiles, jsTruthy, hk, hb, he]
  · intro b url key p e rest limitN fsz upsert json r hk hb he
    simp [FileCmd.handler, FileCmd.dispatch, FileCmd.deleteFiles, hk, hb, he]
  · intro b url key f t e limitN fsz upsert json r hk hb hf ht he
    simp [FileCmd.handler, FileCmd.dispatch, FileCmd.moveFile, jsTruthy, hk, hb, hf, ht, he]
  · intro b url key f t e limitN fsz upsert json r hk hb hf ht he
    simp [FileCmd.handler, FileCmd.dispatch, FileCmd.copyFile, jsTruthy, hk, hb, hf, ht, he]
  · intro b url key s e limitN fsz upsert json r hk hb hs he
    simp [FileCmd.handler, FileCmd.dispatch, FileCmd.getFileInfo, actualPathOf, jsTruthy,
          hk, hb, hs, he]
  · intro b url key f rp e limitN fsz upsert json r hk hb hf hrp he
    simp [FileCmd.handler, FileCmd.dispatch, FileCmd.updateFile, jsTruthy, hk, hb, hf, hrp, he]
  · intro b url key s e ev dl json r hk hb hs he
    simp [Url.handler, Url.getSignedUrl, jsTruthy, hk, hb, hs, he]
  · intro b url key s e ev dl json r hk hb hs he
    simp [Url.handler, Url.getSignedUploadUrl, jsTruthy, hk, hb, hs, he]
  · intro b url key p e rest ev dl json r hk hb hp he
    simp [Url.handler, Url.getSignedUrls, jsTruthy, hk, hb, hp, he]
  · intro b url key s e limitN fsz upsert json r hk hb hs he
    have htr : FileCmd.handler ⟨FileAction.exists, b, none, none, some s, none, none, none,
        none, limitN, none, upsert, url, key, json⟩ fsz r =
        [Eff.mkClient url key, Eff.call (ClientOp.existsObj b s)] ++
        (if json then
          [Eff.out (jsonStringify (Jx.obj
            [("exists", Jx.bool r.existsObj.data),
             ("error", if e = "" then Jx.null else Jx.str e)]))]
         else if r.existsObj.data then [Eff.success ("File exists: " ++ s)]
         else [Eff.info ("File does not exist: " ++ s)]) := by
      simp [FileCmd.handler, FileCmd.dispatch, FileCmd.checkFileExists, actualPathOf, jsTruthy,
            hk, hb, hs, he]
    refine ⟨htr, ?_, ?_⟩
    · rw [htr]
      rcases json <;> rcases r.existsObj.data <;> simp
    · intro m
      rw [htr]
      rcases json <;> rcases r.existsObj.data <;> simp

/-- Witness for C1 (amended): a failing `listBuckets` call under
`--json` still ends in the error-channel message and exit 1, while a
failing `client.exists` call produces no exit-1 effect. -/
theorem c1_witness :
    Bucket.handler ⟨BucketAction.list, none, none, "u", "k", true⟩
        (bucketRespsWith (some "boom")) =
      [Eff.mkClient "u" "k", Eff.call ClientOp.listBuckets, Eff.err "boom", Eff.exit 1] ∧
    (Eff.exit 1) ∉ FileCmd.handler
        ⟨FileAction.exists, "b", none, none, some "a.txt", none, none, none, none,
         100, none, false, "u", "k", false⟩ 5 (fileRespsWith (some "boom")) := by
  constructor
  · exact c1_errors_propagate_except_exists.1 "u" "k" "boom" none none true
      (bucketRespsWith (some "boom")) (by decide) rfl
  · exact (c1_errors_propagate_except_exists.2.2.2.2.2.2.2.2.2.2.2.2.2.2.2.2.2
      "b" "u" "k" "a.txt" "boom" 100 5 false false (fileRespsWith (some "boom"))
      (by decide) (by decide) (by decide) rfl).2.1

example : formatBytes 0 = "0 B" := by decide
example : formatBytes 1024 = "1 KB" := by decide
example : formatBytes 1536 = "1.5 KB" := by decide
example : formatBytes 500 = "500 B" := by decide
example : formatBytes 2621440 = "2.5 MB" := by decide
example : getContentType "PHOTO.JPG" = "image/jpeg" := by decide
example : getContentType "noextension" = "application/octet-stream" := by decide
example : getContentType "my.photo.backup.jpg" = "image/jpeg" := by decide
example : getContentType "file.unknown" = "application/octet-stream" := by decide
example : basenameString "dir/a.txt" = "a.txt" := by decide
example : extname "a." = "." := by decide
example : extname ".hidden" = "" := by decide
example : extname ".." = "" := by decide
